import Mathlib

/-!
Social-Media-Platform: the request handlers of `server.js` over an explicit store.

The SQLite database of `server.js` is embedded as a record of five row lists (one per
table, in rowid order) together with the `sqlite_sequence` counters that `AUTOINCREMENT`
keeps.  Every handler is a function from the store before the request to the store after
it and the list of responses the handler sends, in order.

Modelling conventions.

* Ids are natural numbers.  A route parameter `:id` is the integer that the `INTEGER`
  affinity of the column it is compared with gives it.  The follow route also compares the
  text of its parameter in JavaScript, so it takes the text together with that integer
  (`IdParam`).
* Numbers of JavaScript are doubles: the integers read by `parseInt` and the numerals compared
  by `==` are rounded to the nearest double, and `LIMIT ?` and `OFFSET ?` refuse a number
  outside the 64-bit range.
* `req.user.id` is the id carried by the verified token; handlers take it as `user`.
* `CURRENT_TIMESTAMP` and store errors that do not depend on the data (I/O, busy) come
  from the environment `Env`: `Env.fails k` says that the `k`-th statement issued by the
  request raises such an error.  A statement that raises an error changes nothing.
* The schema declares foreign keys, but the connection never issues
  `PRAGMA foreign_keys = ON` and no `ON DELETE` action is declared, so the only
  constraints a statement can violate are `UNIQUE` (and `PRIMARY KEY`).
* Requests are executed one at a time.
* Library services (`bcrypt`, `jsonwebtoken`) are the fields of `Lib`; what a claim needs of
  them is a hypothesis of its theorem.  The value `RANDOM()` takes for a row is a parameter
  of the suggestion query.
* The router lists the routes in the order `server.js` registers them.  The rate limiter,
  the static files and the security headers are not modelled.
* Of the client (`public/script.js`) only the two functions that send a `DELETE` request are
  embedded, as the list of prompts and requests they produce for given answers of the user.
-/

namespace SocialMedia

/-! ## Rows and the store -/

/-- Row of table `users`. -/
structure User where
  id : Nat
  username : String
  email : String
  password : String
  full_name : Option String
  bio : Option String
  profile_picture : Option String
  created_at : Nat
deriving DecidableEq, Repr

/-- Row of table `posts`. -/
structure Post where
  id : Nat
  user_id : Nat
  content : String
  image_url : Option String
  created_at : Nat
deriving DecidableEq, Repr

/-- Row of table `comments`. -/
structure Comment where
  id : Nat
  post_id : Nat
  user_id : Nat
  content : String
  created_at : Nat
deriving DecidableEq, Repr

/-- Row of table `likes`. -/
structure Like where
  id : Nat
  post_id : Nat
  user_id : Nat
  created_at : Nat
deriving DecidableEq, Repr

/-- Row of table `followers`. -/
structure Follow where
  id : Nat
  follower_id : Nat
  following_id : Nat
  created_at : Nat
deriving DecidableEq, Repr

/-- The database: the five tables and the `sqlite_sequence` counter of each. -/
structure Store where
  users : List User
  posts : List Post
  comments : List Comment
  likes : List Like
  followers : List Follow
  seq_users : Nat
  seq_posts : Nat
  seq_comments : Nat
  seq_likes : Nat
  seq_followers : Nat
deriving DecidableEq, Repr

/-- The database right after the `CREATE TABLE IF NOT EXISTS` statements on a fresh file. -/
def emptyStore : Store :=
  { users := [], posts := [], comments := [], likes := [], followers := [],
    seq_users := 0, seq_posts := 0, seq_comments := 0, seq_likes := 0, seq_followers := 0 }

/-- Rowid that `INTEGER PRIMARY KEY AUTOINCREMENT` gives the next row: one more than the
largest rowid the table has ever held. -/
def nextId (seq : Nat) (ids : List Nat) : Nat :=
  max seq (ids.foldr max 0) + 1

/-! ## Environment, errors, responses -/

/-- What a request takes from outside the store: which statements raise an error that does
not depend on the data, the value of `CURRENT_TIMESTAMP`, and the verdict of JavaScript's
`number == text` for a text that is not a string of decimal digits (see `looseEq`). -/
structure Env where
  fails : Nat → Bool
  now : Nat
  looseEqOther : Nat → String → Bool

/-- An environment in which no statement raises a data-independent error.  Its `==` fails
for every text that is not a string of decimal digits; that is the verdict of JavaScript for
the texts of the examples in this file. -/
def Env.calm (now : Nat) : Env :=
  { fails := fun _ => false, now := now, looseEqOther := fun _ _ => false }

/-- An environment in which exactly the `j`-th statement raises a data-independent error. -/
def Env.failingAt (j now : Nat) : Env :=
  { fails := fun k => k == j, now := now, looseEqOther := fun _ _ => false }

/-- The two kinds of `err` a statement callback can receive. -/
inductive DbErr where
  | unique
  | fault
deriving DecidableEq, Repr

/-- Row of the follower, following, suggestion and search listings. -/
structure UserSummary where
  id : Nat
  username : String
  full_name : Option String
  profile_picture : Option String
  is_following : Bool
deriving DecidableEq, Repr

/-- Row of the feed and of the posts listing of one user: the columns of `posts`, the three
columns of the author and the three computed columns. -/
structure FeedRow where
  id : Nat
  user_id : Nat
  content : String
  image_url : Option String
  created_at : Nat
  username : String
  full_name : Option String
  profile_picture : Option String
  likes_count : Nat
  comments_count : Nat
  is_liked : Bool
deriving DecidableEq, Repr

/-- Row of the comments listing: the columns of `comments` and three columns of the author. -/
structure CommentRow where
  id : Nat
  post_id : Nat
  user_id : Nat
  content : String
  created_at : Nat
  username : String
  full_name : Option String
  profile_picture : Option String
deriving DecidableEq, Repr

/-- Row of the profile query. -/
structure Profile where
  id : Nat
  username : String
  full_name : Option String
  bio : Option String
  profile_picture : Option String
  created_at : Nat
  followers_count : Nat
  following_count : Nat
  posts_count : Nat
  is_following : Bool
deriving DecidableEq, Repr

/-- JSON bodies the handlers send. -/
inductive Body where
  | error (msg : String)
  | message (msg : String)
  | liked (msg : String) (liked : Bool)
  | following (msg : String) (following : Bool)
  | postCreated (msg : String) (post_id : Nat)
  | commentCreated (msg : String) (comment_id : Nat)
  | registered (msg : String) (token : String) (id : Nat) (username : String)
      (email : String) (full_name : Option String)
  | users (rows : List UserSummary)
  | loggedIn (msg : String) (token : String) (id : Nat) (username : String) (email : String)
      (full_name : Option String) (bio : Option String) (profile_picture : Option String)
  | profile (row : Profile)
  | posts (rows : List FeedRow)
  | comments (rows : List CommentRow)
deriving DecidableEq, Repr

/-- One `res.status(..).json(..)` call (`res.json(..)` alone has status 200). -/
structure Response where
  status : Nat
  body : Body
deriving DecidableEq, Repr

/-- The store after a request and the responses its handler sent, in order. -/
structure Outcome where
  store : Store
  sent : List Response
deriving DecidableEq, Repr

/-- Run the `k`-th statement of a request: a data-independent error, or the statement. -/
def exec (e : Env) (k : Nat) (stmt : Store → Except DbErr Store) (s : Store) :
    Except DbErr Store :=
  if e.fails k then .error .fault else stmt s

/-- Library services the handlers call: `bcrypt.hash(password, 10)` (`none` when the
promise is rejected) and `jwt.sign` applied to the id and username with `JWT_SECRET`;
`bcrypt.compare(password, hash)`; and `jwt.verify(token, JWT_SECRET)`, which gives the id and
username of the payload, or `none` when it reports an error. -/
structure Lib where
  hash : String → Option String
  sign : Nat → String → String
  compare : String → String → Bool
  verify : String → Option (Nat × String)

/-! ## Likes -/

/-- Clause `WHERE post_id = ? AND user_id = ?` on `likes`. -/
def likeMatches (postId user : Nat) (l : Like) : Bool :=
  l.post_id == postId && l.user_id == user

/-- Statement `SELECT * FROM likes WHERE post_id = ? AND user_id = ?` through `db.get`. -/
def selectLike (s : Store) (postId user : Nat) : Option Like :=
  s.likes.find? (likeMatches postId user)

/-- Statement `DELETE FROM likes WHERE post_id = ? AND user_id = ?`. -/
def deleteLike (postId user : Nat) (s : Store) : Except DbErr Store :=
  .ok { s with likes := s.likes.filter (fun l => !likeMatches postId user l) }

/-- Statement `INSERT INTO likes (post_id, user_id) VALUES (?, ?)` under `UNIQUE(post_id, user_id)`. -/
def insertLike (now postId user : Nat) (s : Store) : Except DbErr Store :=
  if s.likes.any (likeMatches postId user) then .error .unique
  else
    let id := nextId s.seq_likes (s.likes.map Like.id)
    .ok { s with likes := s.likes ++ [{ id := id, post_id := postId, user_id := user,
                                        created_at := now }],
                 seq_likes := id }

/-- Handler of `POST /api/posts/:id/like`. -/
def toggle_like (e : Env) (s : Store) (user postId : Nat) : Outcome :=
  if e.fails 0 then ⟨s, [⟨500, .error "Failed to process like"⟩]⟩
  else
    match selectLike s postId user with
    | some _ =>
      match exec e 1 (deleteLike postId user) s with
      | .error _ => ⟨s, [⟨500, .error "Failed to unlike post"⟩]⟩
      | .ok s' => ⟨s', [⟨200, .liked "Post unliked" false⟩]⟩
    | none =>
      match exec e 1 (insertLike e.now postId user) s with
      | .error _ => ⟨s, [⟨500, .error "Failed to like post"⟩]⟩
      | .ok s' => ⟨s', [⟨200, .liked "Post liked" true⟩]⟩

/-- Number of like rows of a post: `SELECT COUNT(*) FROM likes WHERE post_id = ?`. -/
def likes_count (s : Store) (postId : Nat) : Nat :=
  (s.likes.filter (fun l => l.post_id == postId)).length

/-! ## Registration, profile, posts, comments -/

/-- Statement `INSERT INTO users (username, email, password, full_name) VALUES (?, ?, ?, ?)` under
`username TEXT UNIQUE` and `email TEXT UNIQUE`. -/
def insertUser (now : Nat) (username email password : String) (full_name : Option String)
    (s : Store) : Except DbErr Store :=
  if s.users.any (fun u => u.username == username || u.email == email) then .error .unique
  else
    let id := nextId s.seq_users (s.users.map User.id)
    .ok { s with users := s.users ++ [{ id := id, username := username, email := email,
                                        password := password, full_name := full_name,
                                        bio := none, profile_picture := none,
                                        created_at := now }],
                 seq_users := id }

/-- Handler of `POST /api/register`. -/
def register (L : Lib) (e : Env) (s : Store) (username email password full_name : Option String) :
    Outcome :=
  match username, email, password with
  | some u, some m, some p =>
    if u == "" || m == "" || p == "" then ⟨s, [⟨400, .error "All fields are required"⟩]⟩
    else
      match L.hash p with
      | none => ⟨s, [⟨500, .error "Server error"⟩]⟩
      | some hashedPassword =>
        match exec e 0 (insertUser e.now u m hashedPassword full_name) s with
        | .error .unique => ⟨s, [⟨400, .error "Username or email already exists"⟩]⟩
        | .error .fault => ⟨s, [⟨500, .error "Registration failed"⟩]⟩
        | .ok s' =>
          ⟨s', [⟨201, .registered "User registered successfully" (L.sign s'.seq_users u)
                        s'.seq_users u m full_name⟩]⟩
  | _, _, _ => ⟨s, [⟨400, .error "All fields are required"⟩]⟩

/-- Statement `UPDATE users SET full_name = ?, bio = ? [, profile_picture = ?] WHERE id = ?`. -/
def updateUser (user : Nat) (full_name bio profile_picture : Option String) (s : Store) :
    Except DbErr Store :=
  .ok { s with users := s.users.map (fun u =>
          if u.id == user then
            { u with full_name := full_name, bio := bio,
                     profile_picture :=
                       match profile_picture with
                       | some pic => some pic
                       | none => u.profile_picture }
          else u) }

/-- Handler of `PUT /api/users/profile`, after `upload.single` stored the file (if any)
under the name `file`. -/
def update_profile (e : Env) (s : Store) (user : Nat) (full_name bio file : Option String) :
    Outcome :=
  let profile_picture := file.map (fun name => "/uploads/" ++ name)
  match exec e 0 (updateUser user full_name bio profile_picture) s with
  | .error _ => ⟨s, [⟨500, .error "Failed to update profile"⟩]⟩
  | .ok s' => ⟨s', [⟨200, .message "Profile updated successfully"⟩]⟩

/-- Statement `INSERT INTO posts (user_id, content, image_url) VALUES (?, ?, ?)`. -/
def insertPost (now user : Nat) (content : String) (image_url : Option String) (s : Store) :
    Except DbErr Store :=
  let id := nextId s.seq_posts (s.posts.map Post.id)
  .ok { s with posts := s.posts ++ [{ id := id, user_id := user, content := content,
                                      image_url := image_url, created_at := now }],
               seq_posts := id }

/-- Handler of `POST /api/posts`, after `upload.single` stored the file (if any) under the
name `file`. -/
def create_post (e : Env) (s : Store) (user : Nat) (content file : Option String) : Outcome :=
  let image_url := file.map (fun name => "/uploads/" ++ name)
  match content with
  | none => ⟨s, [⟨400, .error "Content is required"⟩]⟩
  | some c =>
    if c == "" then ⟨s, [⟨400, .error "Content is required"⟩]⟩
    else
      match exec e 0 (insertPost e.now user c image_url) s with
      | .error _ => ⟨s, [⟨500, .error "Failed to create post"⟩]⟩
      | .ok s' => ⟨s', [⟨201, .postCreated "Post created successfully" s'.seq_posts⟩]⟩

/-- Statement `INSERT INTO comments (post_id, user_id, content) VALUES (?, ?, ?)`. -/
def insertComment (now postId user : Nat) (content : String) (s : Store) : Except DbErr Store :=
  let id := nextId s.seq_comments (s.comments.map Comment.id)
  .ok { s with comments := s.comments ++ [{ id := id, post_id := postId, user_id := user,
                                            content := content, created_at := now }],
               seq_comments := id }

/-- Handler of `POST /api/posts/:id/comments`. -/
def add_comment (e : Env) (s : Store) (user postId : Nat) (content : Option String) : Outcome :=
  match content with
  | none => ⟨s, [⟨400, .error "Comment content is required"⟩]⟩
  | some c =>
    if c == "" then ⟨s, [⟨400, .error "Comment content is required"⟩]⟩
    else
      match exec e 0 (insertComment e.now postId user c) s with
      | .error _ => ⟨s, [⟨500, .error "Failed to add comment"⟩]⟩
      | .ok s' => ⟨s', [⟨201, .commentCreated "Comment added successfully" s'.seq_comments⟩]⟩

/-- Statement `DELETE FROM posts WHERE id = ?`.  No `ON DELETE` action is declared and foreign keys
are not enforced: rows of `comments` and `likes` are not touched. -/
def deletePost (postId : Nat) (s : Store) : Except DbErr Store :=
  .ok { s with posts := s.posts.filter (fun p => !(p.id == postId)) }

/-- Handler of `DELETE /api/posts/:id`. -/
def delete_post (e : Env) (s : Store) (user postId : Nat) : Outcome :=
  if e.fails 0 then ⟨s, [⟨500, .error "Failed to fetch post"⟩]⟩
  else
    match s.posts.find? (fun p => p.id == postId) with
    | none => ⟨s, [⟨404, .error "Post not found"⟩]⟩
    | some post =>
      if post.user_id != user then ⟨s, [⟨403, .error "You can only delete your own posts"⟩]⟩
      else
        match exec e 1 (deletePost postId) s with
        | .error _ => ⟨s, [⟨500, .error "Failed to delete post"⟩]⟩
        | .ok s' => ⟨s', [⟨200, .message "Post deleted successfully"⟩]⟩

/-- Number of comment rows of a post. -/
def comments_count (s : Store) (postId : Nat) : Nat :=
  (s.comments.filter (fun c => c.post_id == postId)).length

/-! ## Follow edges -/

/-- Clause `WHERE follower_id = ? AND following_id = ?` on `followers`. -/
def followMatches (follower target : Nat) (f : Follow) : Bool :=
  f.follower_id == follower && f.following_id == target

/-- Statement `SELECT * FROM followers WHERE follower_id = ? AND following_id = ?` through `db.get`. -/
def selectFollow (s : Store) (follower target : Nat) : Option Follow :=
  s.followers.find? (followMatches follower target)

/-- Statement `DELETE FROM followers WHERE follower_id = ? AND following_id = ?`. -/
def deleteFollow (follower target : Nat) (s : Store) : Except DbErr Store :=
  .ok { s with followers := s.followers.filter (fun f => !followMatches follower target f) }

/-- Statement `INSERT INTO followers (follower_id, following_id) VALUES (?, ?)` under
`UNIQUE(follower_id, following_id)`. -/
def insertFollow (now follower target : Nat) (s : Store) : Except DbErr Store :=
  if s.followers.any (followMatches follower target) then .error .unique
  else
    let id := nextId s.seq_followers (s.followers.map Follow.id)
    .ok { s with followers := s.followers ++ [{ id := id, follower_id := follower,
                                                following_id := target, created_at := now }],
                 seq_followers := id }

/-! ## JavaScript numbers and route parameters -/

/-- The JavaScript numbers that the conversion of a decimal numeral, `parseInt`, `-` and `*`
produce: a finite number of integer value, an infinity, or `NaN`.  Zero and negative zero are
one value here: `||`, the product with an infinity and the binding of a parameter treat them
alike. -/
inductive JsNum where
  | fin (v : Int)
  | inf (negative : Bool)
  | nan
deriving DecidableEq, Repr

/-- Least `k`, searched upward from `k` in at most `fuel` steps, for which `n / 2 ^ k` has at
most 53 bits. -/
def dropBits : Nat → Nat → Nat → Nat
  | 0, k, _ => k
  | fuel + 1, k, n => if n / 2 ^ k < 2 ^ 53 then k else dropBits fuel (k + 1) n

/-- The double nearest to an integer, ties to the even significand: an integer below 2^53 in
absolute value is a double; a larger one keeps its 53 leading bits, rounded; from
2^1024 - 2^970 on the result is an infinity. -/
def roundDouble (v : Int) : JsNum :=
  let n := v.natAbs
  if n < 2 ^ 53 then .fin v
  else
    let shift := dropBits 971 0 n
    let q := n / 2 ^ shift
    let r := n % 2 ^ shift
    let up := decide (2 ^ shift < 2 * r) || (decide (2 * r = 2 ^ shift) && decide (q % 2 = 1))
    let m := (if up then q + 1 else q) * 2 ^ shift
    if 2 ^ 1024 ≤ m then .inf (decide (v < 0))
    else .fin (if v < 0 then -(m : Int) else (m : Int))

/-- Value of a string of decimal digits, read after the digits counted in `acc`. -/
def digitsValue : List Char → Nat → Option Nat
  | [], acc => some acc
  | c :: cs, acc =>
    if c.isDigit then digitsValue cs (10 * acc + (c.toNat - 48)) else none

/-- Integer that a text route parameter is compared as against an `INTEGER` column: the value
of a non-empty string of decimal digits, and none for any other text.  (SQLite also converts
signed, padded and real-valued numerals; no route of the client sends one, and only the
follow route below is given what SQLite makes of such a text.) -/
def paramId (p : String) : Option Nat :=
  match p.data with
  | [] => none
  | c :: cs => digitsValue (c :: cs) 0

/-- The route parameter `:id` of the follow route, which the handler uses twice: `text` is
what JavaScript compares with the caller's id in the guard, and `value` is the integer that
SQLite's `INTEGER` affinity makes of the same text where a statement binds it.  For a string
of decimal digits `value` is the value of the numeral; for another text that SQLite reads as
a natural number it is given with the request. -/
structure IdParam where
  text : String
  value : Nat
  digits : ∀ v, paramId text = some v → v = value
deriving DecidableEq, Repr

/-- Expression `n == text` of JavaScript for a number `n` that is a natural number: the text is
converted with `ToNumber` and the two numbers are compared.  A string of decimal digits is
converted to the double nearest to its value; for any other text the verdict is the one of
the environment. -/
def looseEq (e : Env) (n : Nat) (text : String) : Bool :=
  match paramId text with
  | some v => decide (roundDouble (v : Int) = roundDouble (n : Int))
  | none => e.looseEqOther n text

/-- Handler of `POST /api/users/:id/follow`.  The guard `req.user.id == userIdToFollow` is
JavaScript's comparison of the number with the text; the three statements bind the text, which
SQLite reads as `userIdToFollow.value`. -/
def toggle_follow (e : Env) (s : Store) (user : Nat) (userIdToFollow : IdParam) : Outcome :=
  if looseEq e user userIdToFollow.text then ⟨s, [⟨400, .error "Cannot follow yourself"⟩]⟩
  else if e.fails 0 then ⟨s, [⟨500, .error "Failed to process follow"⟩]⟩
  else
    match selectFollow s user userIdToFollow.value with
    | some _ =>
      match exec e 1 (deleteFollow user userIdToFollow.value) s with
      | .error _ => ⟨s, [⟨500, .error "Failed to unfollow user"⟩]⟩
      | .ok s' => ⟨s', [⟨200, .following "User unfollowed" false⟩]⟩
    | none =>
      match exec e 1 (insertFollow e.now user userIdToFollow.value) s with
      | .error _ => ⟨s, [⟨500, .error "Failed to follow user"⟩]⟩
      | .ok s' => ⟨s', [⟨200, .following "User followed" true⟩]⟩

/-- Expression `EXISTS(SELECT 1 FROM followers WHERE follower_id = ? AND following_id = u.id)`. -/
def is_following (s : Store) (viewer uid : Nat) : Bool :=
  s.followers.any (followMatches viewer uid)

/-- Columns selected by the two listings below. -/
def summary (s : Store) (viewer : Nat) (u : User) : UserSummary :=
  { id := u.id, username := u.username, full_name := u.full_name,
    profile_picture := u.profile_picture, is_following := is_following s viewer u.id }

/-- Clause `ORDER BY f.created_at DESC` on joined rows (rows of equal time keep table order). -/
def newestFirst (rows : List (Follow × User)) : List (Follow × User) :=
  rows.insertionSort (fun a b => b.1.created_at ≤ a.1.created_at)

/-- Query of `GET /api/users/:id/followers`: `followers f JOIN users u ON f.follower_id = u.id
WHERE f.following_id = ? ORDER BY f.created_at DESC`. -/
def followersQuery (s : Store) (viewer userId : Nat) : List UserSummary :=
  let joined := s.followers.flatMap (fun f =>
    (s.users.filter (fun u => f.follower_id == u.id)).map (fun u => (f, u)))
  let selected := joined.filter (fun fu => fu.1.following_id == userId)
  (newestFirst selected).map (fun fu => summary s viewer fu.2)

/-- Query of `GET /api/users/:id/following`: `followers f JOIN users u ON f.following_id = u.id
WHERE f.follower_id = ? ORDER BY f.created_at DESC`. -/
def followingQuery (s : Store) (viewer userId : Nat) : List UserSummary :=
  let joined := s.followers.flatMap (fun f =>
    (s.users.filter (fun u => f.following_id == u.id)).map (fun u => (f, u)))
  let selected := joined.filter (fun fu => fu.1.follower_id == userId)
  (newestFirst selected).map (fun fu => summary s viewer fu.2)

/-- Handler of `GET /api/users/:id/followers`. -/
def list_followers (e : Env) (s : Store) (viewer userId : Nat) : Response :=
  if e.fails 0 then ⟨500, .error "Failed to fetch followers"⟩
  else ⟨200, .users (followersQuery s viewer userId)⟩

/-- Handler of `GET /api/users/:id/following`. -/
def list_following (e : Env) (s : Store) (viewer userId : Nat) : Response :=
  if e.fails 0 then ⟨500, .error "Failed to fetch following"⟩
  else ⟨200, .users (followingQuery s viewer userId)⟩

/-! ## Account deletion -/

/-- Statement `DELETE FROM likes WHERE user_id = ?`. -/
def deleteLikesOf (user : Nat) (s : Store) : Except DbErr Store :=
  .ok { s with likes := s.likes.filter (fun l => !(l.user_id == user)) }

/-- Statement `DELETE FROM comments WHERE user_id = ?`. -/
def deleteCommentsOf (user : Nat) (s : Store) : Except DbErr Store :=
  .ok { s with comments := s.comments.filter (fun c => !(c.user_id == user)) }

/-- Statement `DELETE FROM posts WHERE user_id = ?`. -/
def deletePostsOf (user : Nat) (s : Store) : Except DbErr Store :=
  .ok { s with posts := s.posts.filter (fun p => !(p.user_id == user)) }

/-- Statement `DELETE FROM followers WHERE follower_id = ? OR following_id = ?`. -/
def deleteFollowsOf (user : Nat) (s : Store) : Except DbErr Store :=
  .ok { s with followers :=
          s.followers.filter (fun f => !(f.follower_id == user || f.following_id == user)) }

/-- Statement `DELETE FROM users WHERE id = ?`. -/
def deleteUser (user : Nat) (s : Store) : Except DbErr Store :=
  .ok { s with users := s.users.filter (fun u => !(u.id == user)) }

/-- What the callbacks of one `db.serialize` block have done so far: the store the statements
left, the responses sent, and whether a callback has thrown. -/
structure Serial where
  store : Store
  sent : List Response
  thrown : Bool
deriving DecidableEq, Repr

/-- Call of `res.json` (after `res.status`) inside a statement callback.  The first call sends
the response.  A call made after a response was sent sends nothing: setting the headers throws
`ERR_HTTP_HEADERS_SENT` inside the callback. -/
def resJson (r : Response) (c : Serial) : Serial :=
  match c.sent with
  | [] => { c with sent := [r] }
  | _ :: _ => { c with thrown := true }

/-- One statement queued inside `db.serialize`: it runs on the store the previous statement
left; its callback calls `res.json` with `onError` when it fails and with `onSuccess` (if
any) otherwise.  The `return` in a callback ends that callback only, so the next statement
runs either way.  An exception thrown in a callback is caught by nothing in `server.js`: it
ends the process, and the statements still queued do not run. -/
def serialStep (e : Env) (k : Nat) (stmt : Store → Except DbErr Store) (onError : Response)
    (onSuccess : Option Response) (c : Serial) : Serial :=
  if c.thrown then c
  else
    match exec e k stmt c.store with
    | .error _ => resJson onError c
    | .ok s' =>
      match onSuccess with
      | none => { c with store := s' }
      | some r => resJson r { c with store := s' }

/-- Handler of `DELETE /api/users/account`: five statements queued in `db.serialize`.
`sent` lists the responses the client receives. -/
def delete_account (e : Env) (s : Store) (user : Nat) : Outcome :=
  let c0 : Serial := ⟨s, [], false⟩
  let c1 := serialStep e 0 (deleteLikesOf user) ⟨500, .error "Failed to delete user likes"⟩
    none c0
  let c2 := serialStep e 1 (deleteCommentsOf user)
    ⟨500, .error "Failed to delete user comments"⟩ none c1
  let c3 := serialStep e 2 (deletePostsOf user) ⟨500, .error "Failed to delete user posts"⟩
    none c2
  let c4 := serialStep e 3 (deleteFollowsOf user)
    ⟨500, .error "Failed to delete user followers"⟩ none c3
  let c5 := serialStep e 4 (deleteUser user) ⟨500, .error "Failed to delete user account"⟩
    (some ⟨200, .message "Account deleted successfully"⟩) c4
  ⟨c5.store, c5.sent⟩

/-! ## Requests and reachable stores -/

/-- The requests whose handlers write to the store, each with the authenticated user id where
the route is protected.  (`POST /api/login` and every `GET` route only issue `SELECT`.) -/
inductive Request where
  | register (username email password full_name : Option String)
  | update_profile (user : Nat) (full_name bio file : Option String)
  | create_post (user : Nat) (content file : Option String)
  | toggle_like (user postId : Nat)
  | add_comment (user postId : Nat) (content : Option String)
  | delete_post (user postId : Nat)
  | toggle_follow (user : Nat) (userIdToFollow : IdParam)
  | delete_account (user : Nat)
deriving DecidableEq, Repr

/-- Dispatch of a request to its handler. -/
def handle (L : Lib) (e : Env) (s : Store) : Request → Outcome
  | .register username email password full_name => register L e s username email password full_name
  | .update_profile user full_name bio file => update_profile e s user full_name bio file
  | .create_post user content file => create_post e s user content file
  | .toggle_like user postId => toggle_like e s user postId
  | .add_comment user postId content => add_comment e s user postId content
  | .delete_post user postId => delete_post e s user postId
  | .toggle_follow user target => toggle_follow e s user target
  | .delete_account user => delete_account e s user

/-- Stores the server can be in: the fresh database, and the store after any request handled
in a reachable store, whatever the environment and whoever the token names. -/
inductive Reachable : Store → Prop where
  | init : Reachable emptyStore
  | step (s : Store) (L : Lib) (e : Env) (r : Request) :
      Reachable s → Reachable (handle L e s r).store

/-! ## Schema constraints as predicates -/

/-- The columns of `UNIQUE(post_id, user_id)`. -/
def likeKey (l : Like) : Nat × Nat :=
  (l.post_id, l.user_id)

/-- The columns of `UNIQUE(follower_id, following_id)`. -/
def followKey (f : Follow) : Nat × Nat :=
  (f.follower_id, f.following_id)

/-- Constraint `UNIQUE(post_id, user_id)` on `likes`. -/
def LikesUnique (s : Store) : Prop :=
  (s.likes.map likeKey).Nodup

/-- Constraint `UNIQUE(follower_id, following_id)` on `followers`. -/
def FollowsUnique (s : Store) : Prop :=
  (s.followers.map followKey).Nodup

/-- Constraint `PRIMARY KEY` on `posts.id`. -/
def PostIdsUnique (s : Store) : Prop :=
  (s.posts.map Post.id).Nodup

/-- A request succeeded: its handler sent one response, with status 200. -/
def Succeeded (o : Outcome) : Prop :=
  o.sent.map Response.status = [200]

instance (o : Outcome) : Decidable (Succeeded o) := by
  unfold Succeeded; infer_instance

/-- A library whose `bcrypt.hash` returns `h` and whose `jwt.sign` returns the username
followed by the id in decimal; `bcrypt.compare` accepts `pw1` for hash `h1` and `pw2` for hash
`h2`, and `jwt.verify` accepts the tokens of alice (id 1), bob (id 2) and carol (id 3). -/
def sampleLib (h : String) : Lib :=
  { hash := fun _ => some h,
    sign := fun id username => username ++ toString id,
    compare := fun password hashed =>
      (password == "pw1" && hashed == "h1") || (password == "pw2" && hashed == "h2"),
    verify := fun token =>
      if token == "alice1" then some (1, "alice")
      else if token == "bob2" then some (2, "bob")
      else if token == "carol3" then some (3, "carol")
      else none }

/-- A store with one post of user 1 that user 2 liked and commented, and one follow edge. -/
def sampleStore : Store :=
  { users := [{ id := 1, username := "alice", email := "a@x.com", password := "h1",
                full_name := none, bio := none, profile_picture := none, created_at := 0 },
              { id := 2, username := "bob", email := "b@x.com", password := "h2",
                full_name := none, bio := none, profile_picture := none, created_at := 1 }],
    posts := [{ id := 1, user_id := 1, content := "hello", image_url := none, created_at := 2 }],
    comments := [{ id := 1, post_id := 1, user_id := 2, content := "hi", created_at := 3 }],
    likes := [{ id := 1, post_id := 1, user_id := 2, created_at := 4 }],
    followers := [{ id := 1, follower_id := 1, following_id := 2, created_at := 5 }],
    seq_users := 2, seq_posts := 1, seq_comments := 1, seq_likes := 1, seq_followers := 1 }

/-- No user follows themselves. -/
def NoSelfFollow (s : Store) : Prop :=
  ∀ f ∈ s.followers, f.follower_id ≠ f.following_id

/-- The two `UNIQUE` constraints on likes and follow edges together. -/
def StoreInv (s : Store) : Prop :=
  LikesUnique s ∧ FollowsUnique s

/-- A route parameter that passes the guard of the follow route for user 1 although it names
user 1: JavaScript reads the text as 1.0000000000000002 (it lies above the midpoint
1 + 2^-53 of the two nearest doubles), so `1 == text` is false, while SQLite's conversion of
the text gives the real 1.0, which the `INTEGER` affinity of `following_id` stores as the
integer 1. -/
def selfFollowParam : IdParam :=
  { text := "1.00000000000000011102230246251566", value := 1, digits := by decide }

/-! ## Login and the authentication middleware -/

/-- Statement `SELECT * FROM users WHERE username = ?` through `db.get`. -/
def selectUserByName (s : Store) (username : String) : Option User :=
  s.users.find? (fun u => u.username == username)

/-- Handler of `POST /api/login`.  It issues one `SELECT` and never writes. -/
def login (L : Lib) (e : Env) (s : Store) (username password : Option String) : Response :=
  match username, password with
  | some u, some p =>
    if u == "" || p == "" then ⟨400, .error "Username and password are required"⟩
    else if e.fails 0 then ⟨500, .error "Login failed"⟩
    else
      match selectUserByName s u with
      | none => ⟨401, .error "Invalid credentials"⟩
      | some user =>
        if !L.compare p user.password then ⟨401, .error "Invalid credentials"⟩
        else
          ⟨200, .loggedIn "Login successful" (L.sign user.id user.username) user.id user.username
            user.email user.full_name user.bio user.profile_picture⟩
  | _, _ => ⟨400, .error "Username and password are required"⟩

/-- JavaScript `split(' ')` on the characters of a string. -/
def splitSpace : List Char → List (List Char)
  | [] => [[]]
  | c :: cs =>
    if c = ' ' then [] :: splitSpace cs
    else
      match splitSpace cs with
      | [] => [[c]]
      | w :: ws => (c :: w) :: ws

/-- The token of `authenticateToken`: `authHeader && authHeader.split(' ')[1]`, or `none` when
that value is falsy (no header, no second part, or an empty second part). -/
def tokenOf (authorization : Option String) : Option String :=
  match authorization with
  | none => none
  | some authHeader =>
    match (splitSpace authHeader.data)[1]? with
    | none => none
    | some [] => none
    | some (c :: cs) => some (String.mk (c :: cs))

/-- Middleware `authenticateToken`: the response it sends itself, or the verified payload it
stores in `req.user` before calling `next()`. -/
def authenticateToken (L : Lib) (authorization : Option String) : Except Response (Nat × String) :=
  match tokenOf authorization with
  | none => .error ⟨401, .error "Access token required"⟩
  | some token =>
    match L.verify token with
    | none => .error ⟨403, .error "Invalid token"⟩
    | some user => .ok user

/-! ## Read-only queries -/

/-- Number `parseInt(x)` for a query parameter in which `parseInt` reads the integer `x`
(`none` where it reads no integer: `NaN`). -/
def parseIntNum (x : Option Int) : JsNum :=
  match x with
  | none => .nan
  | some n => roundDouble n

/-- Expression `x || d` on numbers: `NaN` and zero are falsy. -/
def jsOr (x d : JsNum) : JsNum :=
  match x with
  | .nan => d
  | .fin v => if v = 0 then d else .fin v
  | .inf negative => .inf negative

/-- Operator `-` on numbers. -/
def jsSub : JsNum → JsNum → JsNum
  | .fin a, .fin b => roundDouble (a - b)
  | .fin _, .inf negative => .inf (!negative)
  | .inf negative, .fin _ => .inf negative
  | .inf n, .inf m => if n = m then .nan else .inf n
  | .nan, _ => .nan
  | _, .nan => .nan

/-- Operator `*` on numbers. -/
def jsMul : JsNum → JsNum → JsNum
  | .fin a, .fin b => roundDouble (a * b)
  | .fin a, .inf negative => if a = 0 then .nan else .inf (xor (decide (a < 0)) negative)
  | .inf negative, .fin b => if b = 0 then .nan else .inf (xor negative (decide (b < 0)))
  | .inf n, .inf m => .inf (xor n m)
  | .nan, _ => .nan
  | _, .nan => .nan

/-- Integer that `LIMIT ?` or `OFFSET ?` takes from a bound number, and none where the
statement fails with `datatype mismatch`: the number is bound as an integer or as a double,
and SQLite takes a double that is an integer strictly between -2^63 and 2^63; an infinity is
out of that range and `NaN` is bound as `NULL`. -/
def limitArg : JsNum → Option Int
  | .fin v => if v.natAbs < 2 ^ 63 then some v else none
  | .inf _ => none
  | .nan => none

/-- Clause `LIMIT ? OFFSET ?`: a negative offset counts as 0, a negative limit as no limit. -/
def limitOffset {α : Type} (limit offset : Int) (rows : List α) : List α :=
  if limit < 0 then rows.drop offset.toNat else (rows.drop offset.toNat).take limit.toNat

/-- Join `posts p JOIN users u ON p.user_id = u.id`: a post without a user row has no row. -/
def postsWithAuthor (s : Store) : List (Post × User) :=
  s.posts.flatMap (fun p => (s.users.filter (fun u => p.user_id == u.id)).map (fun u => (p, u)))

/-- Clause `ORDER BY p.created_at DESC` (rows of equal time keep table order). -/
def postsNewestFirst (rows : List (Post × User)) : List (Post × User) :=
  rows.insertionSort (fun a b => b.1.created_at ≤ a.1.created_at)

/-- Expression `EXISTS(SELECT 1 FROM likes WHERE post_id = p.id AND user_id = ?)`. -/
def is_liked (s : Store) (viewer postId : Nat) : Bool :=
  s.likes.any (likeMatches postId viewer)

/-- Columns selected by the feed and by the posts listing of one user. -/
def feedRow (s : Store) (viewer : Nat) (pu : Post × User) : FeedRow :=
  { id := pu.1.id, user_id := pu.1.user_id, content := pu.1.content,
    image_url := pu.1.image_url, created_at := pu.1.created_at,
    username := pu.2.username, full_name := pu.2.full_name,
    profile_picture := pu.2.profile_picture,
    likes_count := likes_count s pu.1.id, comments_count := comments_count s pu.1.id,
    is_liked := is_liked s viewer pu.1.id }

/-- Query of `GET /api/posts`. -/
def feedQuery (s : Store) (viewer : Nat) (limit offset : Int) : List FeedRow :=
  (limitOffset limit offset (postsNewestFirst (postsWithAuthor s))).map (feedRow s viewer)

/-- Handler of `GET /api/posts`; `page` and `limit` are the integers `parseInt` reads in the
query parameters.  A `LIMIT` or `OFFSET` that SQLite does not take is an `err` of the
statement. -/
def list_feed (e : Env) (s : Store) (viewer : Nat) (page limit : Option Int) : Response :=
  let page := jsOr (parseIntNum page) (.fin 1)
  let limit := jsOr (parseIntNum limit) (.fin 10)
  let offset := jsMul (jsSub page (.fin 1)) limit
  if e.fails 0 then ⟨500, .error "Failed to fetch posts"⟩
  else
    match limitArg limit, limitArg offset with
    | some l, some o => ⟨200, .posts (feedQuery s viewer l o)⟩
    | _, _ => ⟨500, .error "Failed to fetch posts"⟩

/-- Query of `GET /api/users/:id/posts`: the feed query with `WHERE p.user_id = ?`. -/
def userPostsQuery (s : Store) (viewer userId : Nat) (limit offset : Int) : List FeedRow :=
  (limitOffset limit offset
    (postsNewestFirst ((postsWithAuthor s).filter (fun pu => pu.1.user_id == userId)))).map
    (feedRow s viewer)

/-- Handler of `GET /api/users/:id/posts`. -/
def list_user_posts (e : Env) (s : Store) (viewer userId : Nat) (page limit : Option Int) :
    Response :=
  let page := jsOr (parseIntNum page) (.fin 1)
  let limit := jsOr (parseIntNum limit) (.fin 10)
  let offset := jsMul (jsSub page (.fin 1)) limit
  if e.fails 0 then ⟨500, .error "Failed to fetch user posts"⟩
  else
    match limitArg limit, limitArg offset with
    | some l, some o => ⟨200, .posts (userPostsQuery s viewer userId l o)⟩
    | _, _ => ⟨500, .error "Failed to fetch user posts"⟩

/-- Query of `GET /api/posts/:id/comments`: `comments c JOIN users u ON c.user_id = u.id
WHERE c.post_id = ? ORDER BY c.created_at ASC`. -/
def commentsQuery (s : Store) (postId : Nat) : List CommentRow :=
  let joined := s.comments.flatMap (fun c =>
    (s.users.filter (fun u => c.user_id == u.id)).map (fun u => (c, u)))
  let selected := joined.filter (fun cu => cu.1.post_id == postId)
  let sorted := selected.insertionSort (fun a b => a.1.created_at ≤ b.1.created_at)
  sorted.map (fun cu =>
    { id := cu.1.id, post_id := cu.1.post_id, user_id := cu.1.user_id, content := cu.1.content,
      created_at := cu.1.created_at, username := cu.2.username, full_name := cu.2.full_name,
      profile_picture := cu.2.profile_picture })

/-- Handler of `GET /api/posts/:id/comments`. -/
def list_comments (e : Env) (s : Store) (postId : Nat) : Response :=
  if e.fails 0 then ⟨500, .error "Failed to fetch comments"⟩
  else ⟨200, .comments (commentsQuery s postId)⟩

/-- Handler of `GET /api/users/:id`, on the raw text of the route parameter. -/
def get_profile (e : Env) (s : Store) (viewer : Nat) (userId : String) : Response :=
  if e.fails 0 then ⟨500, .error "Failed to fetch user profile"⟩
  else
    match s.users.find? (fun u => paramId userId == some u.id) with
    | none => ⟨404, .error "User not found"⟩
    | some u =>
      ⟨200, .profile
        { id := u.id, username := u.username, full_name := u.full_name, bio := u.bio,
          profile_picture := u.profile_picture, created_at := u.created_at,
          followers_count := (s.followers.filter (fun f => f.following_id == u.id)).length,
          following_count := (s.followers.filter (fun f => f.follower_id == u.id)).length,
          posts_count := (s.posts.filter (fun p => p.user_id == u.id)).length,
          is_following := is_following s viewer u.id }⟩

/-- Subquery `SELECT following_id FROM followers WHERE follower_id = ?`. -/
def followedBy (s : Store) (viewer : Nat) : List Nat :=
  (s.followers.filter (fun f => f.follower_id == viewer)).map Follow.following_id

/-- Query of the suggested-users handler: `users u WHERE u.id != ? AND u.id NOT IN (..)
ORDER BY RANDOM() LIMIT 5`, where `random k` is the value `RANDOM()` takes for the `k`-th
selected row. -/
def suggestedQuery (random : Nat → Nat) (s : Store) (viewer : Nat) : List UserSummary :=
  let candidates := s.users.filter (fun u => u.id != viewer && !(followedBy s viewer).contains u.id)
  let keyed := candidates.enum.map (fun ku => (random ku.1, ku.2))
  let shuffled := keyed.insertionSort (fun a b => a.1 ≤ b.1)
  (shuffled.take 5).map (fun ku => summary s viewer ku.2)

/-- Handler registered for `GET /api/users/suggested`. -/
def list_suggested (e : Env) (random : Nat → Nat) (s : Store) (viewer : Nat) : Response :=
  if e.fails 0 then ⟨500, .error "Failed to fetch suggested users"⟩
  else ⟨200, .users (suggestedQuery random s viewer)⟩

/-- The part of a text before its first character U+0000.  SQLite's `LIKE` reads its pattern
and its text as NUL-terminated strings, so it sees this part only. -/
def uptoNul (t : List Char) : List Char :=
  t.takeWhile (fun c => c != Char.ofNat 0)

/-- Comparison of a text with a `LIKE` pattern (first argument), without `ESCAPE`: `%` stands
for any run of characters, `_` for one character, and any other character for itself up to
the case of ASCII letters. -/
def likeChars : List Char → List Char → Bool
  | [], s => s.isEmpty
  | p :: ps, s =>
    if p = '%' then s.tails.any (fun t => likeChars ps t)
    else
      match s with
      | [] => false
      | c :: cs => (p == '_' || p.toLower == c.toLower) && likeChars ps cs

/-- SQLite `text LIKE pattern` (pattern first): the comparison of the parts before the first
U+0000 of each. -/
def likeMatch (pattern text : List Char) : Bool :=
  likeChars (uptoNul pattern) (uptoNul text)

/-- Clause `WHERE u.username LIKE ? OR u.full_name LIKE ?` with both parameters `%query%`; a
`NULL` full name matches nothing. -/
def searchMatches (query : String) (u : User) : Bool :=
  likeMatch ('%' :: query.data ++ ['%']) u.username.data ||
    (match u.full_name with
     | some n => likeMatch ('%' :: query.data ++ ['%']) n.data
     | none => false)

/-- Clause `ORDER BY u.username` under the `BINARY` collation. -/
def byUsername (rows : List User) : List User :=
  rows.insertionSort (fun a b => a.username.data ≤ b.username.data)

/-- Query of `GET /api/users/search/:query`. -/
def searchQuery (s : Store) (viewer : Nat) (query : String) : List UserSummary :=
  ((byUsername (s.users.filter (searchMatches query))).take 20).map (summary s viewer)

/-- Handler of `GET /api/users/search/:query`. -/
def search_users (e : Env) (s : Store) (viewer : Nat) (query : String) : Response :=
  if e.fails 0 then ⟨500, .error "Failed to search users"⟩
  else ⟨200, .users (searchQuery s viewer query)⟩

/-! ## Upload middleware, protected routes and the router -/

/-- What `multer` knows of an uploaded file. -/
structure Upload where
  originalname : String
  mimetype : String
  size : Nat
deriving DecidableEq, Repr

/-- Limit `limits.fileSize` of the upload configuration, in bytes. -/
def fileSizeLimit : Nat := 5 * 1024 * 1024

/-- Response of the error-handling middleware registered last with `app.use`; an error that a
middleware passes to `next` ends there. -/
def errorMiddleware : Response :=
  ⟨500, .error "Something went wrong!"⟩

/-- Middleware `upload.single(field)`: without a file it goes on; a file whose `mimetype` does
not start with `image/` is refused by `fileFilter` and a file above `fileSize` by the limit,
both through `next(err)`; otherwise the file is stored under `storedName`, the name the
`filename` callback made up. -/
def uploadSingle (file : Option Upload) (storedName : String) : Except Response (Option String) :=
  match file with
  | none => .ok none
  | some f =>
    if !("image/".data.isPrefixOf f.mimetype.data) then .error errorMiddleware
    else if f.size > fileSizeLimit then .error errorMiddleware
    else .ok (some storedName)

/-- A request to one of the routes registered with `authenticateToken`, by handler, with the
route parameters, query parameters and body fields the handler reads. -/
inductive Call where
  | get_profile (id : String)
  | update_profile (full_name bio : Option String) (file : Option Upload) (storedName : String)
  | create_post (content : Option String) (file : Option Upload) (storedName : String)
  | list_feed (page limit : Option Int)
  | list_user_posts (id : Nat) (page limit : Option Int)
  | toggle_like (postId : Nat)
  | add_comment (postId : Nat) (content : Option String)
  | list_comments (postId : Nat)
  | delete_post (postId : Nat)
  | toggle_follow (id : IdParam)
  | list_followers (id : Nat)
  | list_following (id : Nat)
  | list_suggested
  | delete_account
  | search_users (query : String)
deriving DecidableEq, Repr

/-- What follows `authenticateToken` in the chain of a protected route, for the user id of the
verified token: the upload middleware where the route has one, then the handler. -/
def run (e : Env) (random : Nat → Nat) (s : Store) (user : Nat) : Call → Outcome
  | .get_profile id => ⟨s, [get_profile e s user id]⟩
  | .update_profile full_name bio file storedName =>
    match uploadSingle file storedName with
    | .error r => ⟨s, [r]⟩
    | .ok stored => update_profile e s user full_name bio stored
  | .create_post content file storedName =>
    match uploadSingle file storedName with
    | .error r => ⟨s, [r]⟩
    | .ok stored => create_post e s user content stored
  | .list_feed page limit => ⟨s, [list_feed e s user page limit]⟩
  | .list_user_posts id page limit => ⟨s, [list_user_posts e s user id page limit]⟩
  | .toggle_like postId => toggle_like e s user postId
  | .add_comment postId content => add_comment e s user postId content
  | .list_comments postId => ⟨s, [list_comments e s postId]⟩
  | .delete_post postId => delete_post e s user postId
  | .toggle_follow id => toggle_follow e s user id
  | .list_followers id => ⟨s, [list_followers e s user id]⟩
  | .list_following id => ⟨s, [list_following e s user id]⟩
  | .list_suggested => ⟨s, [list_suggested e random s user]⟩
  | .delete_account => delete_account e s user
  | .search_users query => ⟨s, [search_users e s user query]⟩

/-- A protected route: `authenticateToken` first, and the rest of the chain only when it calls
`next()`. -/
def serve (L : Lib) (e : Env) (random : Nat → Nat) (s : Store) (authorization : Option String)
    (c : Call) : Outcome :=
  match authenticateToken L authorization with
  | .error r => ⟨s, [r]⟩
  | .ok user => run e random s user.1 c

/-- HTTP methods the server registers routes for. -/
inductive Method where
  | GET
  | POST
  | PUT
  | DELETE
deriving DecidableEq, Repr

/-- Segment of a route path: a literal, or a named parameter such as `:id`. -/
inductive Seg where
  | lit (text : String)
  | param
deriving DecidableEq, Repr

/-- The handlers `server.js` registers. -/
inductive Endpoint where
  | register
  | login
  | get_profile
  | update_profile
  | create_post
  | list_feed
  | list_user_posts
  | toggle_like
  | add_comment
  | list_comments
  | delete_post
  | toggle_follow
  | list_followers
  | list_following
  | list_suggested
  | delete_account
  | search_users
  | index
deriving DecidableEq, Repr

/-- The routes in the order `server.js` registers them, which is the order Express tries
them in. -/
def routes : List (Method × List Seg × Endpoint) :=
  [ (.POST, [.lit "api", .lit "register"], .register),
    (.POST, [.lit "api", .lit "login"], .login),
    (.GET, [.lit "api", .lit "users", .param], .get_profile),
    (.PUT, [.lit "api", .lit "users", .lit "profile"], .update_profile),
    (.POST, [.lit "api", .lit "posts"], .create_post),
    (.GET, [.lit "api", .lit "posts"], .list_feed),
    (.GET, [.lit "api", .lit "users", .param, .lit "posts"], .list_user_posts),
    (.POST, [.lit "api", .lit "posts", .param, .lit "like"], .toggle_like),
    (.POST, [.lit "api", .lit "posts", .param, .lit "comments"], .add_comment),
    (.GET, [.lit "api", .lit "posts", .param, .lit "comments"], .list_comments),
    (.DELETE, [.lit "api", .lit "posts", .param], .delete_post),
    (.POST, [.lit "api", .lit "users", .param, .lit "follow"], .toggle_follow),
    (.GET, [.lit "api", .lit "users", .param, .lit "followers"], .list_followers),
    (.GET, [.lit "api", .lit "users", .param, .lit "following"], .list_following),
    (.GET, [.lit "api", .lit "users", .lit "suggested"], .list_suggested),
    (.DELETE, [.lit "api", .lit "users", .lit "account"], .delete_account),
    (.GET, [.lit "api", .lit "users", .lit "search", .param], .search_users),
    (.GET, [], .index) ]

/-- Match of a route path against the segments of a request path: the values of the
parameters, or `none`.  A parameter stands for one non-empty segment.  (Express also accepts
another case of the letters of a literal and a trailing slash; paths are taken in the
spelling of the client.) -/
def matchPath : List Seg → List String → Option (List String)
  | [], [] => some []
  | .lit text :: ps, x :: xs => if text == x then matchPath ps xs else none
  | .param :: ps, x :: xs => if x == "" then none else (matchPath ps xs).map (fun vs => x :: vs)
  | _, _ => none

/-- The first registered route that matches the method and path, with its parameters. -/
def matchRoute (method : Method) (path : List String) : Option (Endpoint × List String) :=
  routes.findSome? (fun r =>
    if r.1 == method then (matchPath r.2.1 path).map (fun vs => (r.2.2, vs)) else none)

/-- An HTTP request as the routes read it: method, path segments, `Authorization` header,
`parseInt` of the query parameters, fields of the parsed body, the uploaded file of the field
the route reads, and the name the upload storage makes up for it. -/
structure HttpRequest where
  method : Method
  path : List String
  authorization : Option String
  query : String → Option Int
  body : String → Option String
  file : Option Upload
  storedName : String

/-- The call a matched protected route makes; `none` for the routes that are not protected and
for an id parameter that is no string of decimal digits. -/
def callOf (ep : Endpoint) (params : List String) (req : HttpRequest) : Option Call :=
  match ep, params with
  | .get_profile, [id] => some (.get_profile id)
  | .update_profile, [] =>
    some (.update_profile (req.body "full_name") (req.body "bio") req.file req.storedName)
  | .create_post, [] => some (.create_post (req.body "content") req.file req.storedName)
  | .list_feed, [] => some (.list_feed (req.query "page") (req.query "limit"))
  | .list_user_posts, [id] =>
    (paramId id).map (fun n => .list_user_posts n (req.query "page") (req.query "limit"))
  | .toggle_like, [id] => (paramId id).map .toggle_like
  | .add_comment, [id] => (paramId id).map (fun n => .add_comment n (req.body "content"))
  | .list_comments, [id] => (paramId id).map .list_comments
  | .delete_post, [id] => (paramId id).map .delete_post
  | .toggle_follow, [id] =>
    match h : paramId id with
    | some n =>
      some (.toggle_follow ⟨id, n, fun _ hv => Option.some.inj (hv.symm.trans h)⟩)
    | none => none
  | .list_followers, [id] => (paramId id).map .list_followers
  | .list_following, [id] => (paramId id).map .list_following
  | .list_suggested, [] => some .list_suggested
  | .delete_account, [] => some .delete_account
  | .search_users, [query] => some (.search_users query)
  | _, _ => none

/-- The server on one request: the first matching route answers.  The result is `none` where
this development has no model: no route matches, the page at `/`, or an id parameter that is
no string of decimal digits. -/
def server (L : Lib) (e : Env) (random : Nat → Nat) (s : Store) (req : HttpRequest) :
    Option Outcome :=
  match matchRoute req.method req.path with
  | none => none
  | some (.register, _) =>
    some (register L e s (req.body "username") (req.body "email") (req.body "password")
      (req.body "full_name"))
  | some (.login, _) => some ⟨s, [login L e s (req.body "username") (req.body "password")]⟩
  | some (.index, _) => none
  | some (ep, params) => (callOf ep params req).map (serve L e random s req.authorization)

/-! ## Constraints on `users` -/

/-- Constraints `username TEXT UNIQUE` and `email TEXT UNIQUE`. -/
def UsersUnique (s : Store) : Prop :=
  (s.users.map User.username).Nodup ∧ (s.users.map User.email).Nodup

/-- Constraint `PRIMARY KEY` on `users.id`. -/
def UserIdsUnique (s : Store) : Prop :=
  (s.users.map User.id).Nodup

/-- A register call answered 201. -/
def Created (o : Outcome) : Prop :=
  o.sent.map Response.status = [201]

instance (o : Outcome) : Decidable (Created o) := by
  unfold Created; infer_instance

/-- What `jsonwebtoken` promises of the token it signs for an id and username: verification
with the same secret gives back that id and username, and the token is a non-empty text
without a space (three base64url parts joined by dots). -/
def TokenSound (L : Lib) (id : Nat) (username : String) : Prop :=
  L.verify (L.sign id username) = some (id, username) ∧
  ' ' ∉ (L.sign id username).data ∧ (L.sign id username).data ≠ []

/-- A request with no header, no query parameter, no body field and no file. -/
def bareRequest (method : Method) (path : List String) : HttpRequest :=
  { method := method, path := path, authorization := none, query := fun _ => none,
    body := fun _ => none, file := none, storedName := "" }

/-- The feed without `LIMIT` and `OFFSET`: one row for each post joined with its author, newest
first. -/
def feedAll (s : Store) (viewer : Nat) : List FeedRow :=
  (postsNewestFirst (postsWithAuthor s)).map (feedRow s viewer)

/-- The rows of a posts response (none for any other response). -/
def feedRows (r : Response) : List FeedRow :=
  match r.body with
  | .posts rows => rows
  | _ => []

/-- The store after alice registered, deleted her account and then, with the token she still
holds, created a post: the post has no author row. -/
def orphanStore : Store :=
  { emptyStore with
    posts := [{ id := 1, user_id := 1, content := "hello", image_url := none, created_at := 2 }],
    seq_users := 1, seq_posts := 1 }

/-- The sample store before anyone liked the post. -/
def helloStore : Store :=
  { sampleStore with likes := [], seq_likes := 0 }

/-- Text `x`, read up to its first U+0000, contains `q` as a contiguous part, up to the case of
ASCII letters. -/
def containsNoCase (q x : String) : Bool :=
  decide (q.data.map Char.toLower <:+: (uptoNul x.data).map Char.toLower)

/-- The username or the full name of the user contains the query, up to the case of ASCII
letters. -/
def nameContains (query : String) (u : User) : Bool :=
  containsNoCase query u.username ||
    (match u.full_name with
     | some n => containsNoCase query n
     | none => false)

/-- The query has none of the characters `LIKE` does not read as themselves: the wildcards `%`
and `_`, and U+0000, which ends the pattern. -/
def PlainQuery (query : String) : Prop :=
  '%' ∉ query.data ∧ '_' ∉ query.data ∧ Char.ofNat 0 ∉ query.data

/-! ## The two destructive actions of the client (`public/script.js`) -/

namespace Client

/-- What the user sees or the browser sends while a client function runs: a `confirm` prompt
with the answer given to it, or a request made through `apiCall`. -/
inductive Event where
  | confirm (text : String) (accepted : Bool)
  | request (method : Method) (path : List String)
deriving DecidableEq, Repr

/-- Function `deletePost(postId)` up to and including its `apiCall`; `answers k` is the answer
of the user to the `k`-th prompt.  What follows the call (removing the element, a toast,
reloading the profile) sends no `DELETE` request. -/
def deletePost (answers : Nat → Bool) (postId : Nat) : List Event :=
  if !answers 0 then
    [.confirm "Are you sure you want to delete this post? This action cannot be undone." false]
  else
    [.confirm "Are you sure you want to delete this post? This action cannot be undone." true,
     .request .DELETE ["api", "posts", toString postId]]

/-- Click handler of `delete-account-btn` up to and including its `apiCall`; `answers k` is
the answer of the user to the `k`-th prompt.  What follows the call (a toast, clearing the
session, showing the login screen) sends no request. -/
def deleteAccountClick (answers : Nat → Bool) : List Event :=
  if !answers 0 then
    [.confirm ("Are you sure you want to delete your account? This action cannot be undone " ++
      "and will permanently delete all your data including posts, comments, likes, and " ++
      "followers.") false]
  else if !answers 1 then
    [.confirm ("Are you sure you want to delete your account? This action cannot be undone " ++
      "and will permanently delete all your data including posts, comments, likes, and " ++
      "followers.") true,
     .confirm ("This is your final warning. Your account and all associated data will be " ++
      "permanently deleted. Are you absolutely sure?") false]
  else
    [.confirm ("Are you sure you want to delete your account? This action cannot be undone " ++
      "and will permanently delete all your data including posts, comments, likes, and " ++
      "followers.") true,
     .confirm ("This is your final warning. Your account and all associated data will be " ++
      "permanently deleted. Are you absolutely sure?") true,
     .request .DELETE ["api", "users", "account"]]

/-- The event is a request. -/
def Event.isRequest : Event → Bool
  | .request _ _ => true
  | .confirm _ _ => false

/-- The event is a prompt that the user accepted. -/
def Event.isAccepted : Event → Bool
  | .confirm _ accepted => accepted
  | .request _ _ => false

end Client

/-! ## Lemmas on the like toggle -/

theorem selectLike_eq_none {s : Store} {postId user : Nat} :
    selectLike s postId user = none ↔ s.likes.any (likeMatches postId user) = false := by
  simp [selectLike, List.find?_eq_none]

theorem likeMatches_iff (postId user : Nat) (l : Like) :
    likeMatches postId user l = true ↔ l.post_id = postId ∧ l.user_id = user := by
  simp [likeMatches]

theorem any_likeMatches_iff (s : Store) (postId user : Nat) :
    s.likes.any (likeMatches postId user) = true ↔
      ∃ l ∈ s.likes, l.post_id = postId ∧ l.user_id = user := by
  simp [List.any_eq_true, likeMatches_iff]

/-- The unlike branch, when neither statement raises a data-independent error. -/
theorem toggle_like_present (e : Env) (s : Store) (user postId : Nat)
    (h0 : e.fails 0 = false) (h1 : e.fails 1 = false)
    (hx : s.likes.any (likeMatches postId user) = true) :
    toggle_like e s user postId =
      ⟨{ s with likes := s.likes.filter (fun l => !likeMatches postId user l) },
        [⟨200, .liked "Post unliked" false⟩]⟩ := by
  cases hf : selectLike s postId user with
  | none => rw [selectLike_eq_none] at hf; rw [hf] at hx; cases hx
  | some l => simp [toggle_like, h0, hf, exec, h1, deleteLike]

/-- The like branch, when neither statement raises a data-independent error. -/
theorem toggle_like_absent (e : Env) (s : Store) (user postId : Nat)
    (h0 : e.fails 0 = false) (h1 : e.fails 1 = false)
    (hx : s.likes.any (likeMatches postId user) = false) :
    toggle_like e s user postId =
      ⟨{ s with likes := s.likes ++ [{ id := nextId s.seq_likes (s.likes.map Like.id),
                                       post_id := postId, user_id := user,
                                       created_at := e.now }],
                seq_likes := nextId s.seq_likes (s.likes.map Like.id) },
        [⟨200, .liked "Post liked" true⟩]⟩ := by
  have hf := selectLike_eq_none.mpr hx
  simp [toggle_like, h0, hf, exec, h1, insertLike, hx]

/-- Success of a like toggle means that neither statement raised an error. -/
theorem toggle_like_succeeded (e : Env) (s : Store) (user postId : Nat)
    (h : Succeeded (toggle_like e s user postId)) : e.fails 0 = false ∧ e.fails 1 = false := by
  unfold Succeeded toggle_like at h
  cases h0 : e.fails 0 with
  | true => simp [h0] at h
  | false =>
    cases h1 : e.fails 1 with
    | true =>
      cases hf : selectLike s postId user <;> simp [h0, hf, exec, h1] at h
    | false => exact ⟨rfl, rfl⟩

/-- A like toggle never touches the other four tables. -/
theorem toggle_like_frame (e : Env) (s : Store) (user postId : Nat) :
    (toggle_like e s user postId).store.users = s.users ∧
    (toggle_like e s user postId).store.posts = s.posts ∧
    (toggle_like e s user postId).store.comments = s.comments ∧
    (toggle_like e s user postId).store.followers = s.followers := by
  unfold toggle_like exec deleteLike insertLike
  cases e.fails 0 <;> cases e.fails 1 <;> cases selectLike s postId user <;>
    cases s.likes.any (likeMatches postId user) <;> simp

/-! ## List lemmas on keyed rows -/

theorem perm_filter_ne_append {β : Type} [DecidableEq β] (ks : List β) (a : β)
    (hn : ks.Nodup) (ha : a ∈ ks) :
    List.Perm (ks.filter (fun k => decide (k ≠ a)) ++ [a]) ks := by
  have h1 : ks.filter (fun k => decide (k ≠ a)) = ks.erase a := by
    rw [hn.erase_eq_filter]
    congr 1
    funext k
    rw [Bool.eq_iff_iff]
    simp
  rw [h1]
  exact (List.perm_append_singleton a _).trans (List.perm_cons_erase ha).symm

theorem filter_eq_self_of_none {α : Type} (p : α → Bool) (l : List α)
    (h : l.any p = false) : l.filter (fun x => !p x) = l := by
  rw [List.filter_eq_self]
  intro x hx
  have := List.any_eq_false.mp h x hx
  simpa using this

theorem map_likeKey_filter (l : List Like) (postId user : Nat) :
    (l.filter (fun x => !likeMatches postId user x)).map likeKey =
      (l.map likeKey).filter (fun k => decide (k ≠ (postId, user))) := by
  induction l with
  | nil => rfl
  | cons x xs ih =>
    have hk : likeMatches postId user x = decide (likeKey x = (postId, user)) := by
      rw [Bool.eq_iff_iff]
      simp [likeMatches, likeKey, Prod.ext_iff]
    by_cases hm : likeKey x = (postId, user) <;> simp [List.filter_cons, hk, hm, ih]

theorem likes_count_eq_keys (s : Store) (q : Nat) :
    likes_count s q = ((s.likes.map likeKey).filter (fun k => k.1 == q)).length := by
  simp [likes_count, List.filter_map, likeKey, Function.comp_def]

/-! ## Claims on the like toggle -/

/-- C1. `toggle_like` when the store raises no error: if a like row for (post, user) exists,
all such rows are deleted and `liked: false` is reported; otherwise exactly one row for
(post, user) is appended and `liked: true` is reported.  Every other like row, and each of
the other four tables, is unchanged. -/
theorem toggle_like_contract (e : Env) (s : Store) (user postId : Nat)
    (h0 : e.fails 0 = false) (h1 : e.fails 1 = false) :
    ((∃ l ∈ s.likes, l.post_id = postId ∧ l.user_id = user) →
      (toggle_like e s user postId).sent = [⟨200, .liked "Post unliked" false⟩] ∧
      (toggle_like e s user postId).store.likes =
        s.likes.filter (fun l => decide (¬(l.post_id = postId ∧ l.user_id = user)))) ∧
    ((¬∃ l ∈ s.likes, l.post_id = postId ∧ l.user_id = user) →
      (toggle_like e s user postId).sent = [⟨200, .liked "Post liked" true⟩] ∧
      ∃ l : Like, l.post_id = postId ∧ l.user_id = user ∧
        (toggle_like e s user postId).store.likes = s.likes ++ [l]) ∧
    (toggle_like e s user postId).store.users = s.users ∧
    (toggle_like e s user postId).store.posts = s.posts ∧
    (toggle_like e s user postId).store.comments = s.comments ∧
    (toggle_like e s user postId).store.followers = s.followers := by
  refine ⟨?_, ?_, toggle_like_frame e s user postId⟩
  · intro hx
    rw [toggle_like_present e s user postId h0 h1 ((any_likeMatches_iff s postId user).mpr hx)]
    refine ⟨rfl, ?_⟩
    show s.likes.filter _ = s.likes.filter _
    congr 1
    funext l
    rw [Bool.eq_iff_iff]
    simp [likeMatches]
  · intro hx
    have hx' : s.likes.any (likeMatches postId user) = false := by
      rw [← Bool.not_eq_true, any_likeMatches_iff]
      exact hx
    rw [toggle_like_absent e s user postId h0 h1 hx']
    exact ⟨rfl, ⟨_, rfl, rfl, rfl⟩⟩

/-- Witness of C1: user 2 unlikes post 1 of the sample store. -/
theorem toggle_like_contract_witness :
    (toggle_like (Env.calm 9) sampleStore 2 1).sent = [⟨200, .liked "Post unliked" false⟩] ∧
    (toggle_like (Env.calm 9) sampleStore 2 1).store.likes = [] ∧
    (toggle_like (Env.calm 9) sampleStore 2 1).store.comments = sampleStore.comments := by
  have h := toggle_like_contract (Env.calm 9) sampleStore 2 1 rfl rfl
  have hx : ∃ l ∈ sampleStore.likes, l.post_id = 1 ∧ l.user_id = 2 :=
    ⟨⟨1, 1, 2, 4⟩, by simp [sampleStore], rfl, rfl⟩
  refine ⟨(h.1 hx).1, ?_, h.2.2.2.2.1⟩
  rw [(h.1 hx).2]
  simp [sampleStore]

/-- Two like toggles that both succeed, on a store that satisfies `UNIQUE(post_id, user_id)`,
leave the (post, user) pairs of the like rows as they were, up to order. -/
theorem like_keys_after_two_toggles (e1 e2 : Env) (s : Store) (user postId : Nat)
    (hu : LikesUnique s)
    (h1 : Succeeded (toggle_like e1 s user postId))
    (h2 : Succeeded (toggle_like e2 (toggle_like e1 s user postId).store user postId)) :
    List.Perm
      ((toggle_like e2 (toggle_like e1 s user postId).store user postId).store.likes.map likeKey)
      (s.likes.map likeKey) := by
  obtain ⟨a0, a1⟩ := toggle_like_succeeded _ _ _ _ h1
  obtain ⟨b0, b1⟩ := toggle_like_succeeded _ _ _ _ h2
  cases hx : s.likes.any (likeMatches postId user) with
  | true =>
    rw [toggle_like_present e1 s user postId a0 a1 hx]
    have hnone : (s.likes.filter (fun l => !likeMatches postId user l)).any
        (likeMatches postId user) = false := by
      rw [List.any_eq_false]
      intro l hl
      have := (List.mem_filter.mp hl).2
      simpa using this
    rw [toggle_like_absent e2 _ user postId b0 b1 hnone]
    simp only [List.map_append, List.map_cons, List.map_nil, map_likeKey_filter]
    have hmem : (postId, user) ∈ s.likes.map likeKey := by
      obtain ⟨l, hl, hp, hq⟩ := (any_likeMatches_iff s postId user).mp hx
      exact List.mem_map.mpr ⟨l, hl, by simp [likeKey, hp, hq]⟩
    exact perm_filter_ne_append _ _ hu hmem
  | false =>
    rw [toggle_like_absent e1 s user postId a0 a1 hx]
    have hsome : (s.likes ++ [Like.mk (nextId s.seq_likes (s.likes.map Like.id))
        postId user e1.now]).any (likeMatches postId user) = true := by
      simp [likeMatches]
    rw [toggle_like_present e2 _ user postId b0 b1 hsome]
    simp only [List.filter_append, filter_eq_self_of_none _ _ hx]
    simp [likeMatches]

/-- C2. Two successive successful `toggle_like` calls of the same user on the same post, on a
store that satisfies the schema's `UNIQUE(post_id, user_id)`, leave the like rows as they were
up to row id, timestamp and order, and the stored like count of every post is unchanged. -/
theorem toggle_like_twice (e1 e2 : Env) (s : Store) (user postId : Nat)
    (hu : LikesUnique s)
    (h1 : Succeeded (toggle_like e1 s user postId))
    (h2 : Succeeded (toggle_like e2 (toggle_like e1 s user postId).store user postId)) :
    List.Perm
      ((toggle_like e2 (toggle_like e1 s user postId).store user postId).store.likes.map likeKey)
      (s.likes.map likeKey) ∧
    ∀ q : Nat,
      likes_count (toggle_like e2 (toggle_like e1 s user postId).store user postId).store q =
        likes_count s q := by
  have hp := like_keys_after_two_toggles e1 e2 s user postId hu h1 h2
  refine ⟨hp, ?_⟩
  intro q
  rw [likes_count_eq_keys, likes_count_eq_keys]
  exact (hp.filter _).length_eq

/-- Witness of C2: user 2 unlikes and likes again post 1 of the sample store. -/
theorem toggle_like_twice_witness :
    LikesUnique sampleStore ∧
    likes_count (toggle_like (Env.calm 8) (toggle_like (Env.calm 7) sampleStore 2 1).store
      2 1).store 1 = likes_count sampleStore 1 :=
  have hu : LikesUnique sampleStore := by simp [LikesUnique, sampleStore]
  ⟨hu, (toggle_like_twice (Env.calm 7) (Env.calm 8) sampleStore 2 1 hu
    (by decide) (by decide)).2 1⟩

/-- Counterexample to C3 as stated: in the sample store user 2 already likes post 1; the toggle
succeeds and the stored like count of post 1 goes from 1 to 0, not to 2. -/
theorem toggle_like_can_decrement :
    Succeeded (toggle_like (Env.calm 9) sampleStore 2 1) ∧
    likes_count sampleStore 1 = 1 ∧
    likes_count (toggle_like (Env.calm 9) sampleStore 2 1).store 1 = 0 ∧
    likes_count (toggle_like (Env.calm 9) sampleStore 2 1).store 1 ≠
      likes_count sampleStore 1 + 1 := by
  decide

/-- C3 (amended). A successful `toggle_like` changes the stored like count of that post by
exactly 1: it adds 1 when no like row for (post, user) existed, and in a store that satisfies
`UNIQUE(post_id, user_id)` it removes 1 when such a row existed. -/
theorem toggle_like_count (e : Env) (s : Store) (user postId : Nat)
    (hu : LikesUnique s) (h : Succeeded (toggle_like e s user postId)) :
    ((¬∃ l ∈ s.likes, l.post_id = postId ∧ l.user_id = user) →
      likes_count (toggle_like e s user postId).store postId = likes_count s postId + 1) ∧
    ((∃ l ∈ s.likes, l.post_id = postId ∧ l.user_id = user) →
      likes_count (toggle_like e s user postId).store postId + 1 = likes_count s postId) := by
  obtain ⟨h0, h1⟩ := toggle_like_succeeded _ _ _ _ h
  constructor
  · intro hx
    have hx' : s.likes.any (likeMatches postId user) = false := by
      rw [← Bool.not_eq_true, any_likeMatches_iff]
      exact hx
    rw [toggle_like_absent e s user postId h0 h1 hx']
    simp [likes_count]
  · intro hx
    have hx' := (any_likeMatches_iff s postId user).mpr hx
    rw [toggle_like_present e s user postId h0 h1 hx']
    have hmem : (postId, user) ∈ s.likes.map likeKey := by
      obtain ⟨l, hl, hp, hq⟩ := hx
      exact List.mem_map.mpr ⟨l, hl, by simp [likeKey, hp, hq]⟩
    have hp := perm_filter_ne_append _ _ hu hmem
    have hlen := ((hp.filter (fun k => k.1 == postId)).length_eq)
    rw [likes_count_eq_keys, likes_count_eq_keys]
    simp only [map_likeKey_filter]
    rw [← hlen]
    simp [List.filter_append]

/-- Witness of C3 (amended): user 1 likes post 1 of the sample store for the first time. -/
theorem toggle_like_count_witness :
    LikesUnique sampleStore ∧ Succeeded (toggle_like (Env.calm 9) sampleStore 1 1) ∧
    likes_count (toggle_like (Env.calm 9) sampleStore 1 1).store 1 =
      likes_count sampleStore 1 + 1 :=
  have hu : LikesUnique sampleStore := by simp [LikesUnique, sampleStore]
  ⟨hu, by decide,
    (toggle_like_count (Env.calm 9) sampleStore 1 1 hu (by decide)).1 (by decide)⟩

/-! ## Claims on post deletion -/

/-- Handler `delete_post` touches no table but `posts`. -/
theorem delete_post_frame (e : Env) (s : Store) (user postId : Nat) :
    (delete_post e s user postId).store.users = s.users ∧
    (delete_post e s user postId).store.comments = s.comments ∧
    (delete_post e s user postId).store.likes = s.likes ∧
    (delete_post e s user postId).store.followers = s.followers := by
  unfold delete_post exec deletePost
  cases e.fails 0 <;> cases e.fails 1 <;> cases s.posts.find? (fun p => p.id == postId) <;>
    simp <;> split <;> simp

/-- C4 (evaluation at the failing input). User 1 deletes post 1 of the sample store: the request
succeeds and the post row is gone, but the like row and the comment row whose `post_id` is 1
are still in the store. -/
theorem delete_post_leaves_dependents :
    Succeeded (delete_post (Env.calm 9) sampleStore 1 1) ∧
    (delete_post (Env.calm 9) sampleStore 1 1).store.posts = [] ∧
    (delete_post (Env.calm 9) sampleStore 1 1).store.likes =
      [{ id := 1, post_id := 1, user_id := 2, created_at := 4 }] ∧
    (delete_post (Env.calm 9) sampleStore 1 1).store.comments =
      [{ id := 1, post_id := 1, user_id := 2, content := "hi", created_at := 3 }] := by
  decide

theorem find_post_eq_none (s : Store) (postId : Nat) :
    s.posts.find? (fun p => p.id == postId) = none ↔ ∀ p ∈ s.posts, p.id ≠ postId := by
  simp [List.find?_eq_none]

/-- Under `PRIMARY KEY`, the row `db.get` returns for an id is the only row with that id. -/
theorem find_post_of_mem (s : Store) (postId : Nat) (hk : PostIdsUnique s) (p : Post)
    (hp : p ∈ s.posts) (hid : p.id = postId) :
    s.posts.find? (fun q => q.id == postId) = some p := by
  cases hf : s.posts.find? (fun q => q.id == postId) with
  | none => exact absurd hid ((find_post_eq_none s postId).mp hf p hp)
  | some q =>
    have hq := List.mem_of_find?_eq_some hf
    have hqid : q.id = postId := by simpa using List.find?_some hf
    have := List.inj_on_of_nodup_map hk hq hp (hqid.trans hid.symm)
    rw [this]

/-- C5. `delete_post` when the store raises no error, posts having distinct ids: 404 and an
unchanged store when no post has the id, 403 and an unchanged store when the post is another
user's, and success exactly when the post exists and is the caller's. -/
theorem delete_post_status (e : Env) (s : Store) (user postId : Nat)
    (h0 : e.fails 0 = false) (h1 : e.fails 1 = false) (hk : PostIdsUnique s) :
    ((∀ p ∈ s.posts, p.id ≠ postId) →
      delete_post e s user postId = ⟨s, [⟨404, .error "Post not found"⟩]⟩) ∧
    ((∃ p ∈ s.posts, p.id = postId ∧ p.user_id ≠ user) →
      delete_post e s user postId = ⟨s, [⟨403, .error "You can only delete your own posts"⟩]⟩) ∧
    (Succeeded (delete_post e s user postId) ↔ ∃ p ∈ s.posts, p.id = postId ∧ p.user_id = user) := by
  refine ⟨?_, ?_, ?_⟩
  · intro hx
    have hf := (find_post_eq_none s postId).mpr hx
    simp [delete_post, h0, hf]
  · rintro ⟨p, hp, hid, hne⟩
    have hf := find_post_of_mem s postId hk p hp hid
    simp [delete_post, h0, hf, hne]
  · constructor
    · intro hs
      cases hf : s.posts.find? (fun q => q.id == postId) with
      | none => simp [Succeeded, delete_post, h0, hf] at hs
      | some q =>
        have hq := List.mem_of_find?_eq_some hf
        have hqid : q.id = postId := by simpa using List.find?_some hf
        by_cases hown : q.user_id = user
        · exact ⟨q, hq, hqid, hown⟩
        · simp [Succeeded, delete_post, h0, hf, hown] at hs
    · rintro ⟨p, hp, hid, hown⟩
      have hf := find_post_of_mem s postId hk p hp hid
      simp [Succeeded, delete_post, h0, hf, hown, exec, h1, deletePost]

/-- Witness of C5: user 2 may not delete post 1 of user 1; user 1 may. -/
theorem delete_post_status_witness :
    PostIdsUnique sampleStore ∧
    delete_post (Env.calm 9) sampleStore 2 1 =
      ⟨sampleStore, [⟨403, .error "You can only delete your own posts"⟩]⟩ ∧
    Succeeded (delete_post (Env.calm 9) sampleStore 1 1) :=
  have hk : PostIdsUnique sampleStore := by simp [PostIdsUnique, sampleStore]
  have h := delete_post_status (Env.calm 9) sampleStore 2 1 rfl rfl hk
  ⟨hk, h.2.1 ⟨⟨1, 1, "hello", none, 2⟩, by simp [sampleStore], rfl, by decide⟩, by decide⟩

/-! ## Claims on account deletion -/

/-- Success of `delete_account` means that none of the five statements raised an error. -/
theorem delete_account_succeeded (e : Env) (s : Store) (user : Nat)
    (h : Succeeded (delete_account e s user)) :
    e.fails 0 = false ∧ e.fails 1 = false ∧ e.fails 2 = false ∧ e.fails 3 = false ∧
      e.fails 4 = false := by
  unfold Succeeded delete_account serialStep resJson exec at h
  cases h0 : e.fails 0 <;> cases h1 : e.fails 1 <;> cases h2 : e.fails 2 <;>
    cases h3 : e.fails 3 <;> cases h4 : e.fails 4 <;>
    simp [h0, h1, h2, h3, h4, deleteLikesOf, deleteCommentsOf, deletePostsOf, deleteFollowsOf,
      deleteUser] at h ⊢

/-- The store and response of `delete_account` when no statement raises an error. -/
theorem delete_account_calm (e : Env) (s : Store) (user : Nat)
    (h0 : e.fails 0 = false) (h1 : e.fails 1 = false) (h2 : e.fails 2 = false)
    (h3 : e.fails 3 = false) (h4 : e.fails 4 = false) :
    delete_account e s user =
      ⟨{ s with
          users := s.users.filter (fun u => !(u.id == user)),
          posts := s.posts.filter (fun p => !(p.user_id == user)),
          comments := s.comments.filter (fun c => !(c.user_id == user)),
          likes := s.likes.filter (fun l => !(l.user_id == user)),
          followers :=
            s.followers.filter (fun f => !(f.follower_id == user || f.following_id == user)) },
        [⟨200, .message "Account deleted successfully"⟩]⟩ := by
  simp [delete_account, serialStep, resJson, exec, h0, h1, h2, h3, h4, deleteLikesOf,
    deleteCommentsOf, deletePostsOf, deleteFollowsOf, deleteUser]

/-- Every row of the followers listing is the summary of a row of `users`. -/
theorem followersQuery_from_users (s : Store) (viewer userId : Nat) (r : UserSummary)
    (hr : r ∈ followersQuery s viewer userId) : ∃ u ∈ s.users, r.id = u.id := by
  simp only [followersQuery, newestFirst, List.mem_map] at hr
  obtain ⟨fu, hfu, rfl⟩ := hr
  have h1 := (List.perm_insertionSort _ _).mem_iff.mp hfu
  have h2 := (List.mem_filter.mp h1).1
  simp only [List.mem_flatMap, List.mem_map, List.mem_filter] at h2
  obtain ⟨f, _, u, ⟨hu, _⟩, rfl⟩ := h2
  exact ⟨u, hu, rfl⟩

/-- Every row of the following listing is the summary of a row of `users`. -/
theorem followingQuery_from_users (s : Store) (viewer userId : Nat) (r : UserSummary)
    (hr : r ∈ followingQuery s viewer userId) : ∃ u ∈ s.users, r.id = u.id := by
  simp only [followingQuery, newestFirst, List.mem_map] at hr
  obtain ⟨fu, hfu, rfl⟩ := hr
  have h1 := (List.perm_insertionSort _ _).mem_iff.mp hfu
  have h2 := (List.mem_filter.mp h1).1
  simp only [List.mem_flatMap, List.mem_map, List.mem_filter] at h2
  obtain ⟨f, _, u, ⟨hu, _⟩, rfl⟩ := h2
  exact ⟨u, hu, rfl⟩

/-- C6. After a successful `delete_account` of user `u` no row of any table references `u`:
no user row with that id, no post, comment or like with that `user_id`, no follow edge with
that `follower_id` or `following_id`; and no followers or following listing, for any viewer
and any user, has a row with id `u`. -/
theorem delete_account_clears (e : Env) (s : Store) (user : Nat)
    (h : Succeeded (delete_account e s user)) :
    (∀ u ∈ (delete_account e s user).store.users, u.id ≠ user) ∧
    (∀ p ∈ (delete_account e s user).store.posts, p.user_id ≠ user) ∧
    (∀ c ∈ (delete_account e s user).store.comments, c.user_id ≠ user) ∧
    (∀ l ∈ (delete_account e s user).store.likes, l.user_id ≠ user) ∧
    (∀ f ∈ (delete_account e s user).store.followers,
      f.follower_id ≠ user ∧ f.following_id ≠ user) ∧
    (∀ (e2 : Env) (viewer v : Nat) (rows : List UserSummary),
      list_followers e2 (delete_account e s user).store viewer v = ⟨200, .users rows⟩ →
        ∀ r ∈ rows, r.id ≠ user) ∧
    (∀ (e2 : Env) (viewer v : Nat) (rows : List UserSummary),
      list_following e2 (delete_account e s user).store viewer v = ⟨200, .users rows⟩ →
        ∀ r ∈ rows, r.id ≠ user) := by
  obtain ⟨h0, h1, h2, h3, h4⟩ := delete_account_succeeded e s user h
  rw [delete_account_calm e s user h0 h1 h2 h3 h4]
  have hu : ∀ u ∈ s.users.filter (fun u => !(u.id == user)), u.id ≠ user := by
    intro u hu
    simpa using (List.mem_filter.mp hu).2
  refine ⟨hu, ?_, ?_, ?_, ?_, ?_, ?_⟩
  · intro p hp
    simpa using (List.mem_filter.mp hp).2
  · intro c hc
    simpa using (List.mem_filter.mp hc).2
  · intro l hl
    simpa using (List.mem_filter.mp hl).2
  · intro f hf
    simpa using (List.mem_filter.mp hf).2
  · intro e2 viewer v rows hrows r hr
    unfold list_followers at hrows
    cases hf : e2.fails 0 with
    | true => simp [hf] at hrows
    | false =>
      simp only [hf, Bool.false_eq_true, if_false, Response.mk.injEq, Body.users.injEq,
        true_and] at hrows
      subst hrows
      obtain ⟨u, hmem, hid⟩ := followersQuery_from_users _ viewer v r hr
      rw [hid]
      exact hu u hmem
  · intro e2 viewer v rows hrows r hr
    unfold list_following at hrows
    cases hf : e2.fails 0 with
    | true => simp [hf] at hrows
    | false =>
      simp only [hf, Bool.false_eq_true, if_false, Response.mk.injEq, Body.users.injEq,
        true_and] at hrows
      subst hrows
      obtain ⟨u, hmem, hid⟩ := followingQuery_from_users _ viewer v r hr
      rw [hid]
      exact hu u hmem

/-- Witness of C6: user 1 (alice, who follows bob) deletes her account in the sample store; the
request succeeds and neither the follow edges nor bob's followers listing mention her. -/
theorem delete_account_clears_witness :
    Succeeded (delete_account (Env.calm 9) sampleStore 1) ∧
    (∀ f ∈ (delete_account (Env.calm 9) sampleStore 1).store.followers,
      f.follower_id ≠ 1 ∧ f.following_id ≠ 1) ∧
    ∀ r ∈ followersQuery (delete_account (Env.calm 9) sampleStore 1).store 2 2, r.id ≠ 1 :=
  have hs : Succeeded (delete_account (Env.calm 9) sampleStore 1) := by decide
  have h := delete_account_clears (Env.calm 9) sampleStore 1 hs
  ⟨hs, h.2.2.2.2.1, h.2.2.2.2.2.1 (Env.calm 9) 2 2 _ rfl⟩

/-- The client of `delete_account` receives exactly one response, whatever the environment: a
later `res.json` throws instead of sending. -/
theorem delete_account_one_response (e : Env) (s : Store) (user : Nat) :
    (delete_account e s user).sent.length = 1 := by
  unfold delete_account serialStep resJson exec deleteLikesOf deleteCommentsOf deletePostsOf
    deleteFollowsOf deleteUser
  cases e.fails 0 <;> cases e.fails 1 <;> cases e.fails 2 <;> cases e.fails 3 <;>
    cases e.fails 4 <;> simp

/-- C7 (evaluation at the failing input). User 2 deletes their account in the sample store and
the first statement (`DELETE FROM likes`) fails: the other four statements still run on the
store, which is therefore not left as it was before the request: the user row, the comment and
the follow edge of user 2 are deleted while the like row of user 2 stays, an orphan. -/
theorem delete_account_not_atomic :
    (delete_account (Env.failingAt 0 9) sampleStore 2).store ≠ sampleStore ∧
    (delete_account (Env.failingAt 0 9) sampleStore 2).store.users.map User.id = [1] ∧
    (delete_account (Env.failingAt 0 9) sampleStore 2).store.comments = [] ∧
    (delete_account (Env.failingAt 0 9) sampleStore 2).store.followers = [] ∧
    (delete_account (Env.failingAt 0 9) sampleStore 2).store.likes =
      [{ id := 1, post_id := 1, user_id := 2, created_at := 4 }] ∧
    (∃ l ∈ (delete_account (Env.failingAt 0 9) sampleStore 2).store.likes,
      ∀ u ∈ (delete_account (Env.failingAt 0 9) sampleStore 2).store.users,
        u.id ≠ l.user_id) := by
  decide

/-! ## Claims on the follow toggle -/

/-- An integer below 2^53 is a double. -/
theorem roundDouble_small (n : Nat) (h : n < 2 ^ 53) : roundDouble (n : Int) = .fin (n : Int) := by
  unfold roundDouble
  simp only [Int.natAbs_ofNat]
  rw [if_pos h]

/-- For a parameter that is a string of decimal digits and ids below 2^53, the guard of the
follow route holds exactly when the caller is the target. -/
theorem looseEq_digits (e : Env) (user : Nat) (p : IdParam) (v : Nat)
    (hd : paramId p.text = some v) (hu : user < 2 ^ 53) (hv : v < 2 ^ 53) :
    looseEq e user p.text = decide (user = p.value) := by
  have hval := p.digits v hd
  subst hval
  unfold looseEq
  rw [hd]
  simp only [roundDouble_small _ hu, roundDouble_small _ hv, JsNum.fin.injEq, Nat.cast_inj]
  exact decide_eq_decide.mpr eq_comm

/-- A follow request whose parameter JavaScript finds equal to the caller's id is answered 400
`Cannot follow yourself`, with one response and an unchanged store. -/
theorem toggle_follow_guard (e : Env) (s : Store) (user : Nat) (p : IdParam)
    (hg : looseEq e user p.text = true) :
    toggle_follow e s user p = ⟨s, [⟨400, .error "Cannot follow yourself"⟩]⟩ := by
  simp [toggle_follow, hg]

/-- A follow request of a user on themselves, the parameter being a string of decimal digits and
the id below 2^53, is answered 400 with an unchanged store. -/
theorem toggle_follow_self_digits (e : Env) (s : Store) (p : IdParam)
    (hd : paramId p.text = some p.value) (hv : p.value < 2 ^ 53) :
    toggle_follow e s p.value p = ⟨s, [⟨400, .error "Cannot follow yourself"⟩]⟩ :=
  toggle_follow_guard e s p.value p
    ((looseEq_digits e p.value p p.value hd hv hv).trans (decide_eq_true rfl))

/-- C8 (evaluation at the failing input). User 1 (alice) posts to
`/api/users/1.00000000000000011102230246251566/follow` in the sample store: JavaScript does
not find the text equal to 1, so the guard lets the request through, and the `INSERT` stores
what SQLite reads, the integer 1: the answer is 200 `User followed` and the store has a follow
row from user 1 to user 1. -/
theorem self_follow_passes_guard :
    looseEq (Env.calm 9) 1 selfFollowParam.text = false ∧
    toggle_follow (Env.calm 9) sampleStore 1 selfFollowParam =
      ⟨{ sampleStore with
          followers := sampleStore.followers ++
            [{ id := 2, follower_id := 1, following_id := 1, created_at := 9 }],
          seq_followers := 2 },
        [⟨200, .following "User followed" true⟩]⟩ := by
  decide

theorem selectFollow_eq_none {s : Store} {follower target : Nat} :
    selectFollow s follower target = none ↔
      s.followers.any (followMatches follower target) = false := by
  simp [selectFollow, List.find?_eq_none]

theorem any_followMatches_iff (s : Store) (follower target : Nat) :
    s.followers.any (followMatches follower target) = true ↔
      ∃ f ∈ s.followers, f.follower_id = follower ∧ f.following_id = target := by
  simp [List.any_eq_true, followMatches]

/-- The unfollow branch, when the guard lets the request through and neither statement raises a
data-independent error. -/
theorem toggle_follow_present (e : Env) (s : Store) (user : Nat) (p : IdParam)
    (hg : looseEq e user p.text = false)
    (h0 : e.fails 0 = false) (h1 : e.fails 1 = false)
    (hx : s.followers.any (followMatches user p.value) = true) :
    toggle_follow e s user p =
      ⟨{ s with followers := s.followers.filter (fun f => !followMatches user p.value f) },
        [⟨200, .following "User unfollowed" false⟩]⟩ := by
  cases hf : selectFollow s user p.value with
  | none => rw [selectFollow_eq_none] at hf; rw [hf] at hx; cases hx
  | some f => simp [toggle_follow, hg, h0, hf, exec, h1, deleteFollow]

/-- The follow branch, when the guard lets the request through and neither statement raises a
data-independent error. -/
theorem toggle_follow_absent (e : Env) (s : Store) (user : Nat) (p : IdParam)
    (hg : looseEq e user p.text = false)
    (h0 : e.fails 0 = false) (h1 : e.fails 1 = false)
    (hx : s.followers.any (followMatches user p.value) = false) :
    toggle_follow e s user p =
      ⟨{ s with followers := s.followers ++
                  [Follow.mk (nextId s.seq_followers (s.followers.map Follow.id)) user p.value
                    e.now],
                seq_followers := nextId s.seq_followers (s.followers.map Follow.id) },
        [⟨200, .following "User followed" true⟩]⟩ := by
  have hf := selectFollow_eq_none.mpr hx
  simp [toggle_follow, hg, h0, hf, exec, h1, insertFollow, hx]

/-- A follow toggle never touches the other four tables. -/
theorem toggle_follow_frame (e : Env) (s : Store) (user : Nat) (p : IdParam) :
    (toggle_follow e s user p).store.users = s.users ∧
    (toggle_follow e s user p).store.posts = s.posts ∧
    (toggle_follow e s user p).store.comments = s.comments ∧
    (toggle_follow e s user p).store.likes = s.likes := by
  unfold toggle_follow exec deleteFollow insertFollow
  cases looseEq e user p.text <;> cases e.fails 0 <;> cases e.fails 1 <;>
    cases selectFollow s user p.value <;>
    cases s.followers.any (followMatches user p.value) <;> simp

theorem map_followKey_filter (l : List Follow) (follower target : Nat) :
    (l.filter (fun x => !followMatches follower target x)).map followKey =
      (l.map followKey).filter (fun k => decide (k ≠ (follower, target))) := by
  induction l with
  | nil => rfl
  | cons x xs ih =>
    have hk : followMatches follower target x = decide (followKey x = (follower, target)) := by
      rw [Bool.eq_iff_iff]
      simp [followMatches, followKey, Prod.ext_iff]
    by_cases hm : followKey x = (follower, target) <;> simp [List.filter_cons, hk, hm, ih]

/-- C9. `toggle_follow` of a follower on a target that is not the follower, which is what the
guard decides (JavaScript does not find the route parameter equal to the caller's id), when
the store raises no error: an existing edge (follower, target) is deleted and
`following: false` is reported, otherwise exactly one such edge is appended and
`following: true` is reported; every other edge and each of the other four tables is
unchanged; and a second toggle brings back the original set of edges.  The target is the
integer SQLite reads the parameter as. -/
theorem toggle_follow_contract (e e2 : Env) (s : Store) (user : Nat) (p : IdParam)
    (hg : looseEq e user p.text = false) (hg2 : looseEq e2 user p.text = false)
    (h0 : e.fails 0 = false) (h1 : e.fails 1 = false)
    (k0 : e2.fails 0 = false) (k1 : e2.fails 1 = false) :
    ((∃ f ∈ s.followers, f.follower_id = user ∧ f.following_id = p.value) →
      (toggle_follow e s user p).sent = [⟨200, .following "User unfollowed" false⟩] ∧
      (toggle_follow e s user p).store.followers =
        s.followers.filter
          (fun f => decide (¬(f.follower_id = user ∧ f.following_id = p.value)))) ∧
    ((¬∃ f ∈ s.followers, f.follower_id = user ∧ f.following_id = p.value) →
      (toggle_follow e s user p).sent = [⟨200, .following "User followed" true⟩] ∧
      ∃ f : Follow, f.follower_id = user ∧ f.following_id = p.value ∧
        (toggle_follow e s user p).store.followers = s.followers ++ [f]) ∧
    ((toggle_follow e s user p).store.users = s.users ∧
      (toggle_follow e s user p).store.posts = s.posts ∧
      (toggle_follow e s user p).store.comments = s.comments ∧
      (toggle_follow e s user p).store.likes = s.likes) ∧
    (∀ k : Nat × Nat,
      k ∈ (toggle_follow e2 (toggle_follow e s user p).store user p).store.followers.map
            followKey ↔
        k ∈ s.followers.map followKey) := by
  refine ⟨?_, ?_, toggle_follow_frame e s user p, ?_⟩
  · intro hx
    rw [toggle_follow_present e s user p hg h0 h1
      ((any_followMatches_iff s user p.value).mpr hx)]
    refine ⟨rfl, ?_⟩
    show s.followers.filter _ = s.followers.filter _
    congr 1
    funext f
    rw [Bool.eq_iff_iff]
    simp [followMatches]
  · intro hx
    have hx' : s.followers.any (followMatches user p.value) = false := by
      rw [← Bool.not_eq_true, any_followMatches_iff]
      exact hx
    rw [toggle_follow_absent e s user p hg h0 h1 hx']
    exact ⟨rfl, ⟨_, rfl, rfl, rfl⟩⟩
  · intro k
    cases hx : s.followers.any (followMatches user p.value) with
    | true =>
      rw [toggle_follow_present e s user p hg h0 h1 hx]
      have hnone : (s.followers.filter (fun f => !followMatches user p.value f)).any
          (followMatches user p.value) = false := by
        rw [List.any_eq_false]
        intro f hf
        have := (List.mem_filter.mp hf).2
        simpa using this
      rw [toggle_follow_absent e2 _ user p hg2 k0 k1 hnone]
      simp only [List.map_append, List.map_cons, List.map_nil, map_followKey_filter]
      have hmem : (user, p.value) ∈ s.followers.map followKey := by
        obtain ⟨f, hf, hp, hq⟩ := (any_followMatches_iff s user p.value).mp hx
        exact List.mem_map.mpr ⟨f, hf, by simp [followKey, hp, hq]⟩
      simp only [List.mem_append, List.mem_filter, List.mem_singleton, decide_eq_true_eq,
        followKey]
      constructor
      · rintro (⟨hk, _⟩ | rfl)
        · exact hk
        · exact hmem
      · intro hk
        by_cases hkeq : k = (user, p.value)
        · exact Or.inr hkeq
        · exact Or.inl ⟨hk, hkeq⟩
    | false =>
      rw [toggle_follow_absent e s user p hg h0 h1 hx]
      have hsome : (s.followers ++ [Follow.mk (nextId s.seq_followers
          (s.followers.map Follow.id)) user p.value e.now]).any
          (followMatches user p.value) = true := by
        simp [followMatches]
      rw [toggle_follow_present e2 _ user p hg2 k0 k1 hsome]
      simp only [List.filter_append, filter_eq_self_of_none _ _ hx]
      simp [followMatches]

/-- Witness of C9: in the sample store user 2 follows user 1 and then unfollows. -/
theorem toggle_follow_contract_witness :
    (toggle_follow (Env.calm 7) sampleStore 2 ⟨"1", 1, by decide⟩).sent =
      [⟨200, .following "User followed" true⟩] ∧
    ((3, 4) ∈ (toggle_follow (Env.calm 8) (toggle_follow (Env.calm 7) sampleStore 2
        ⟨"1", 1, by decide⟩).store 2 ⟨"1", 1, by decide⟩).store.followers.map followKey ↔
      (3, 4) ∈ sampleStore.followers.map followKey) :=
  have h := toggle_follow_contract (Env.calm 7) (Env.calm 8) sampleStore 2 ⟨"1", 1, by decide⟩ (by decide)
    (by decide) rfl rfl rfl rfl
  ⟨(h.2.1 (by decide)).1, h.2.2.2 (3, 4)⟩

/-! ## The uniqueness invariant -/

theorem storeInv_empty : StoreInv emptyStore := by
  simp [StoreInv, LikesUnique, FollowsUnique, emptyStore]

/-- Deleting like rows and follow edges keeps the two constraints. -/
theorem storeInv_of_sublist (s t : Store) (hl : t.likes.Sublist s.likes)
    (hf : t.followers.Sublist s.followers) (h : StoreInv s) : StoreInv t := by
  obtain ⟨h1, h2⟩ := h
  exact ⟨List.Nodup.sublist (hl.map likeKey) h1, List.Nodup.sublist (hf.map followKey) h2⟩

theorem register_frame (L : Lib) (e : Env) (s : Store)
    (username email password full_name : Option String) :
    (register L e s username email password full_name).store.likes = s.likes ∧
    (register L e s username email password full_name).store.followers = s.followers := by
  unfold register
  split
  · split
    · exact ⟨rfl, rfl⟩
    · split
      · exact ⟨rfl, rfl⟩
      · split
        · exact ⟨rfl, rfl⟩
        · exact ⟨rfl, rfl⟩
        · rename_i s1 hs1
          unfold exec insertUser at hs1
          split at hs1
          · cases hs1
          · split at hs1
            · cases hs1
            · cases hs1
              exact ⟨rfl, rfl⟩
  · exact ⟨rfl, rfl⟩

theorem update_profile_frame (e : Env) (s : Store) (user : Nat)
    (full_name bio file : Option String) :
    (update_profile e s user full_name bio file).store.likes = s.likes ∧
    (update_profile e s user full_name bio file).store.followers = s.followers := by
  unfold update_profile exec updateUser
  cases e.fails 0 <;> simp

theorem create_post_frame (e : Env) (s : Store) (user : Nat) (content file : Option String) :
    (create_post e s user content file).store.likes = s.likes ∧
    (create_post e s user content file).store.followers = s.followers := by
  unfold create_post exec insertPost
  cases content with
  | none => exact ⟨rfl, rfl⟩
  | some c => cases e.fails 0 <;> by_cases hc : c = "" <;> simp [hc]

theorem add_comment_frame (e : Env) (s : Store) (user postId : Nat) (content : Option String) :
    (add_comment e s user postId content).store.likes = s.likes ∧
    (add_comment e s user postId content).store.followers = s.followers := by
  unfold add_comment exec insertComment
  cases content with
  | none => exact ⟨rfl, rfl⟩
  | some c => cases e.fails 0 <;> by_cases hc : c = "" <;> simp [hc]

/-- What a like toggle can do to `likes`, whatever the environment. -/
theorem toggle_like_likes (e : Env) (s : Store) (user postId : Nat) :
    (toggle_like e s user postId).store.likes.Sublist s.likes ∨
    (s.likes.any (likeMatches postId user) = false ∧
      (toggle_like e s user postId).store.likes =
        s.likes ++ [Like.mk (nextId s.seq_likes (s.likes.map Like.id)) postId user e.now]) := by
  unfold toggle_like exec deleteLike insertLike
  cases e.fails 0 <;> cases e.fails 1 <;> cases selectLike s postId user <;>
    cases hany : s.likes.any (likeMatches postId user) <;> simp

/-- What a follow toggle can do to `followers`, whatever the environment. -/
theorem toggle_follow_followers (e : Env) (s : Store) (user : Nat) (p : IdParam) :
    (toggle_follow e s user p).store.followers.Sublist s.followers ∨
    (s.followers.any (followMatches user p.value) = false ∧
      (toggle_follow e s user p).store.followers =
        s.followers ++
          [Follow.mk (nextId s.seq_followers (s.followers.map Follow.id)) user p.value
            e.now]) := by
  unfold toggle_follow exec deleteFollow insertFollow
  cases looseEq e user p.text <;> cases e.fails 0 <;> cases e.fails 1 <;>
    cases selectFollow s user p.value <;>
    cases hany : s.followers.any (followMatches user p.value) <;> simp

theorem delete_account_sublist (e : Env) (s : Store) (user : Nat) :
    (delete_account e s user).store.likes.Sublist s.likes ∧
    (delete_account e s user).store.followers.Sublist s.followers := by
  unfold delete_account serialStep resJson exec deleteLikesOf deleteCommentsOf deletePostsOf
    deleteFollowsOf deleteUser
  cases e.fails 0 <;> cases e.fails 1 <;> cases e.fails 2 <;> cases e.fails 3 <;>
    cases e.fails 4 <;> simp

theorem toggle_like_inv (e : Env) (s : Store) (user postId : Nat) (h : StoreInv s) :
    StoreInv (toggle_like e s user postId).store := by
  have hfr := (toggle_like_frame e s user postId).2.2.2
  rcases toggle_like_likes e s user postId with hsub | ⟨hany, happ⟩
  · exact storeInv_of_sublist s _ hsub (by rw [hfr]) h
  · obtain ⟨h1, h2⟩ := h
    refine ⟨?_, ?_⟩
    · unfold LikesUnique
      rw [happ, List.map_append, List.nodup_append]
      refine ⟨h1, by simp, ?_⟩
      intro k hk hk2
      simp only [List.map_cons, List.map_nil, List.mem_singleton] at hk2
      subst hk2
      obtain ⟨l, hl, hkey⟩ := List.mem_map.mp hk
      have hno := List.any_eq_false.mp hany l hl
      simp [likeKey, Prod.ext_iff] at hkey
      simp [likeMatches, hkey.1, hkey.2] at hno
    · unfold FollowsUnique
      rw [hfr]
      exact h2

theorem toggle_follow_inv (e : Env) (s : Store) (user : Nat) (p : IdParam) (h : StoreInv s) :
    StoreInv (toggle_follow e s user p).store := by
  have hfr := (toggle_follow_frame e s user p).2.2.2
  rcases toggle_follow_followers e s user p with hsub | ⟨hany, happ⟩
  · exact storeInv_of_sublist s _ (by rw [hfr]) hsub h
  · obtain ⟨h1, h2⟩ := h
    refine ⟨?_, ?_⟩
    · unfold LikesUnique
      rw [hfr]
      exact h1
    · unfold FollowsUnique
      rw [happ, List.map_append, List.nodup_append]
      refine ⟨h2, by simp, ?_⟩
      intro k hk hk2
      simp only [List.map_cons, List.map_nil, List.mem_singleton] at hk2
      subst hk2
      obtain ⟨f, hf, hkey⟩ := List.mem_map.mp hk
      have hno := List.any_eq_false.mp hany f hf
      simp [followKey, Prod.ext_iff] at hkey
      simp [followMatches, hkey.1, hkey.2] at hno

/-- Every handler keeps the two `UNIQUE` constraints, whatever the environment. -/
theorem handle_inv (L : Lib) (e : Env) (s : Store) (r : Request) (h : StoreInv s) :
    StoreInv (handle L e s r).store := by
  cases r with
  | register username email password full_name =>
    have hf := register_frame L e s username email password full_name
    exact storeInv_of_sublist s _ (by simp [handle, hf.1]) (by simp [handle, hf.2]) h
  | update_profile user full_name bio file =>
    have hf := update_profile_frame e s user full_name bio file
    exact storeInv_of_sublist s _ (by simp [handle, hf.1]) (by simp [handle, hf.2]) h
  | create_post user content file =>
    have hf := create_post_frame e s user content file
    exact storeInv_of_sublist s _ (by simp [handle, hf.1]) (by simp [handle, hf.2]) h
  | toggle_like user postId => exact toggle_like_inv e s user postId h
  | add_comment user postId content =>
    have hf := add_comment_frame e s user postId content
    exact storeInv_of_sublist s _ (by simp [handle, hf.1]) (by simp [handle, hf.2]) h
  | delete_post user postId =>
    have hf := delete_post_frame e s user postId
    exact storeInv_of_sublist s _ (by simp [handle, hf.2.2.1]) (by simp [handle, hf.2.2.2]) h
  | toggle_follow user p => exact toggle_follow_inv e s user p h
  | delete_account user =>
    have hf := delete_account_sublist e s user
    exact storeInv_of_sublist s _ hf.1 hf.2 h

theorem reachable_inv (s : Store) (h : Reachable s) : StoreInv s := by
  induction h with
  | init => exact storeInv_empty
  | step s L e r _ ih => exact handle_inv L e s r ih

theorem length_filter_key_le_one {α β : Type} [DecidableEq β] (key : α → β) (l : List α)
    (hn : (l.map key).Nodup) (a : β) : (l.filter (fun x => decide (key x = a))).length ≤ 1 := by
  have h1 : (l.filter (fun x => decide (key x = a))).length = (l.map key).count a := by
    rw [List.count, List.countP_map, List.countP_eq_length_filter]
    congr 2
  rw [h1]
  exact List.nodup_iff_count_le_one.mp hn a

/-- The sample store is reachable: alice and bob register, alice posts, bob comments and
likes, alice follows bob. -/
theorem sampleStore_reachable : Reachable sampleStore := by
  have r1 := Reachable.step _ (sampleLib "h1") (Env.calm 0)
    (.register (some "alice") (some "a@x.com") (some "pw") none) Reachable.init
  have r2 := Reachable.step _ (sampleLib "h2") (Env.calm 1)
    (.register (some "bob") (some "b@x.com") (some "pw") none) r1
  have r3 := Reachable.step _ (sampleLib "h") (Env.calm 2) (.create_post 1 (some "hello") none) r2
  have r4 := Reachable.step _ (sampleLib "h") (Env.calm 3) (.add_comment 2 1 (some "hi")) r3
  have r5 := Reachable.step _ (sampleLib "h") (Env.calm 4) (.toggle_like 2 1) r4
  have r6 := Reachable.step _ (sampleLib "h") (Env.calm 5) (.toggle_follow 1 ⟨"2", 2, by decide⟩) r5
  exact r6

/-- In every store reachable from the empty database by requests handled one at a time, each
(post_id, user_id) pair has at most one like row and each (follower_id, following_id) pair has
at most one follow edge. -/
theorem reachable_pairs_unique (s : Store) (h : Reachable s) :
    (∀ postId user : Nat,
      (s.likes.filter (fun l => decide (l.post_id = postId ∧ l.user_id = user))).length ≤ 1) ∧
    (∀ follower target : Nat,
      (s.followers.filter
        (fun f => decide (f.follower_id = follower ∧ f.following_id = target))).length ≤ 1) := by
  obtain ⟨h1, h2⟩ := reachable_inv s h
  refine ⟨?_, ?_⟩
  · intro postId user
    have := length_filter_key_le_one likeKey s.likes h1 (postId, user)
    simpa [likeKey, Prod.ext_iff] using this
  · intro follower target
    have := length_filter_key_le_one followKey s.followers h2 (follower, target)
    simpa [followKey, Prod.ext_iff] using this

/-- C10 (evaluation at the failing input). The store after user 1 posted to
`/api/users/1.00000000000000011102230246251566/follow` in the sample store is reachable, and
it has a follow edge whose `follower_id` equals its `following_id`: the third part of the
invariant does not hold of the reachable stores.  (The two `UNIQUE` parts do, see
`reachable_pairs_unique`.) -/
theorem self_follow_reachable :
    Reachable (toggle_follow (Env.calm 9) sampleStore 1 selfFollowParam).store ∧
    (∃ f ∈ (toggle_follow (Env.calm 9) sampleStore 1 selfFollowParam).store.followers,
      f.follower_id = f.following_id) ∧
    ¬NoSelfFollow (toggle_follow (Env.calm 9) sampleStore 1 selfFollowParam).store := by
  have hex : ∃ f ∈ (toggle_follow (Env.calm 9) sampleStore 1 selfFollowParam).store.followers,
      f.follower_id = f.following_id := by decide
  refine ⟨Reachable.step _ (sampleLib "h") (Env.calm 9) (.toggle_follow 1 selfFollowParam)
    sampleStore_reachable, hex, ?_⟩
  intro hno
  obtain ⟨f, hf, heq⟩ := hex
  exact hno f hf heq

/-! ## Claims on registration -/

/-- The store a register call leaves when it is answered 201. -/
theorem register_created (L : Lib) (e : Env) (s : Store)
    (username email password full_name : Option String)
    (h : Created (register L e s username email password full_name)) :
    ∃ u m hashed, username = some u ∧ email = some m ∧
      s.users.any (fun x => x.username == u || x.email == m) = false ∧
      (register L e s username email password full_name).store =
        { s with users := s.users ++ [User.mk (nextId s.seq_users (s.users.map User.id)) u m
                    hashed full_name none none e.now],
                 seq_users := nextId s.seq_users (s.users.map User.id) } := by
  unfold Created at h
  cases username with
  | none => simp [register] at h
  | some u =>
    cases email with
    | none => simp [register] at h
    | some m =>
      cases password with
      | none => simp [register] at h
      | some p =>
        by_cases hempty : (u == "" || m == "" || p == "") = true
        · simp [register, hempty] at h
        · cases hh : L.hash p with
          | none => simp [register, hempty, hh] at h
          | some hashed =>
            cases hf : e.fails 0 with
            | true => simp [register, hempty, hh, exec, hf] at h
            | false =>
              cases hany : s.users.any (fun x => x.username == u || x.email == m) with
              | true => simp [register, hempty, hh, exec, hf, insertUser, hany] at h
              | false =>
                refine ⟨u, m, hashed, rfl, rfl, hany, ?_⟩
                simp [register, hempty, hh, exec, hf, insertUser, hany]

/-- A register call leaves `users` as it was unless it is answered 201. -/
theorem register_users_unchanged (L : Lib) (e : Env) (s : Store)
    (username email password full_name : Option String)
    (h : ¬Created (register L e s username email password full_name)) :
    (register L e s username email password full_name).store = s := by
  unfold Created at h
  cases username with
  | none => simp [register]
  | some u =>
    cases email with
    | none => simp [register]
    | some m =>
      cases password with
      | none => simp [register]
      | some p =>
        by_cases hempty : (u == "" || m == "" || p == "") = true
        · simp [register, hempty]
        · cases hh : L.hash p with
          | none => simp [register, hempty, hh]
          | some hashed =>
            cases hf : e.fails 0 with
            | true => simp [register, hempty, hh, exec, hf]
            | false =>
              cases hany : s.users.any (fun x => x.username == u || x.email == m) with
              | true => simp [register, hempty, hh, exec, hf, insertUser, hany]
              | false => simp [register, hempty, hh, exec, hf, insertUser, hany] at h

theorem usersUnique_of_sublist (s t : Store) (hl : t.users.Sublist s.users)
    (h : UsersUnique s) : UsersUnique t :=
  ⟨List.Nodup.sublist (hl.map User.username) h.1, List.Nodup.sublist (hl.map User.email) h.2⟩

theorem register_usersUnique (L : Lib) (e : Env) (s : Store)
    (username email password full_name : Option String) (h : UsersUnique s) :
    UsersUnique (register L e s username email password full_name).store := by
  by_cases hc : Created (register L e s username email password full_name)
  · obtain ⟨u, m, hashed, _, _, hany, hst⟩ := register_created L e s _ _ _ _ hc
    rw [hst]
    have hno := List.any_eq_false.mp hany
    unfold UsersUnique
    simp only [List.map_append, List.map_cons, List.map_nil]
    constructor
    · rw [List.nodup_append]
      refine ⟨h.1, by simp, ?_⟩
      intro k hk hk2
      simp only [List.mem_singleton] at hk2
      subst hk2
      obtain ⟨x, hx, hkey⟩ := List.mem_map.mp hk
      have := hno x hx
      simp [hkey] at this
    · rw [List.nodup_append]
      refine ⟨h.2, by simp, ?_⟩
      intro k hk hk2
      simp only [List.mem_singleton] at hk2
      subst hk2
      obtain ⟨x, hx, hkey⟩ := List.mem_map.mp hk
      have := hno x hx
      simp [hkey] at this
  · rw [register_users_unchanged L e s _ _ _ _ hc]
    exact h

theorem update_profile_usersUnique (e : Env) (s : Store) (user : Nat)
    (full_name bio file : Option String) (h : UsersUnique s) :
    UsersUnique (update_profile e s user full_name bio file).store := by
  unfold update_profile exec updateUser
  cases e.fails 0
  · simp only [Bool.false_eq_true, if_false]
    unfold UsersUnique
    simp only [List.map_map]
    have h1 : (User.username ∘ fun u : User =>
        if (u.id == user) = true then
          { u with full_name := full_name, bio := bio,
                   profile_picture :=
                     match Option.map (fun name => "/uploads/" ++ name) file with
                     | some pic => some pic
                     | none => u.profile_picture }
        else u) = User.username := by
      funext u
      simp only [Function.comp]
      split <;> rfl
    have h2 : (User.email ∘ fun u : User =>
        if (u.id == user) = true then
          { u with full_name := full_name, bio := bio,
                   profile_picture :=
                     match Option.map (fun name => "/uploads/" ++ name) file with
                     | some pic => some pic
                     | none => u.profile_picture }
        else u) = User.email := by
      funext u
      simp only [Function.comp]
      split <;> rfl
    rw [h1, h2]
    exact h
  · simpa using h

theorem create_post_users (e : Env) (s : Store) (user : Nat) (content file : Option String) :
    (create_post e s user content file).store.users = s.users := by
  unfold create_post exec insertPost
  cases content with
  | none => rfl
  | some c => cases e.fails 0 <;> by_cases hc : c = "" <;> simp [hc]

theorem add_comment_users (e : Env) (s : Store) (user postId : Nat) (content : Option String) :
    (add_comment e s user postId content).store.users = s.users := by
  unfold add_comment exec insertComment
  cases content with
  | none => rfl
  | some c => cases e.fails 0 <;> by_cases hc : c = "" <;> simp [hc]

theorem delete_account_users_sublist (e : Env) (s : Store) (user : Nat) :
    (delete_account e s user).store.users.Sublist s.users := by
  unfold delete_account serialStep resJson exec deleteLikesOf deleteCommentsOf deletePostsOf
    deleteFollowsOf deleteUser
  cases e.fails 0 <;> cases e.fails 1 <;> cases e.fails 2 <;> cases e.fails 3 <;>
    cases e.fails 4 <;> simp

/-- Every handler keeps usernames and emails unique, whatever the environment. -/
theorem handle_usersUnique (L : Lib) (e : Env) (s : Store) (r : Request) (h : UsersUnique s) :
    UsersUnique (handle L e s r).store := by
  cases r with
  | register username email password full_name =>
    exact register_usersUnique L e s username email password full_name h
  | update_profile user full_name bio file =>
    exact update_profile_usersUnique e s user full_name bio file h
  | create_post user content file =>
    exact usersUnique_of_sublist s _ (by simp [handle, create_post_users]) h
  | toggle_like user postId =>
    exact usersUnique_of_sublist s _ (by simp [handle, (toggle_like_frame e s user postId).1]) h
  | add_comment user postId content =>
    exact usersUnique_of_sublist s _ (by simp [handle, add_comment_users]) h
  | delete_post user postId =>
    exact usersUnique_of_sublist s _ (by simp [handle, (delete_post_frame e s user postId).1]) h
  | toggle_follow user p =>
    exact usersUnique_of_sublist s _ (by simp [handle, (toggle_follow_frame e s user p).1]) h
  | delete_account user =>
    exact usersUnique_of_sublist s _ (delete_account_users_sublist e s user) h

theorem reachable_usersUnique (s : Store) (h : Reachable s) : UsersUnique s := by
  induction h with
  | init => simp [UsersUnique, emptyStore]
  | step s L e r _ ih => exact handle_usersUnique L e s r ih

/-- C11. In every reachable store no two user rows share a username or an email.  There, a
register call with all fields present whose username or email is that of an existing user is
answered 400 `Username or email already exists` and leaves the store as it was (when the
hashing succeeds and the store raises no error), and a register call answered 201 appends
exactly one user row, with the given username and email, and changes no other table. -/
theorem register_unique (s : Store) (h : Reachable s) :
    ((s.users.map User.username).Nodup ∧ (s.users.map User.email).Nodup) ∧
    (∀ (L : Lib) (e : Env) (username email password hashed : String)
        (full_name : Option String),
      username ≠ "" → email ≠ "" → password ≠ "" → L.hash password = some hashed →
      e.fails 0 = false →
      (∃ u ∈ s.users, u.username = username ∨ u.email = email) →
      register L e s (some username) (some email) (some password) full_name =
        ⟨s, [⟨400, .error "Username or email already exists"⟩]⟩) ∧
    (∀ (L : Lib) (e : Env) (username email password full_name : Option String),
      Created (register L e s username email password full_name) →
      ∃ row : User, some row.username = username ∧ some row.email = email ∧
        (register L e s username email password full_name).store.users = s.users ++ [row] ∧
        (register L e s username email password full_name).store.posts = s.posts ∧
        (register L e s username email password full_name).store.comments = s.comments ∧
        (register L e s username email password full_name).store.likes = s.likes ∧
        (register L e s username email password full_name).store.followers = s.followers) := by
  refine ⟨reachable_usersUnique s h, ?_, ?_⟩
  · intro L e username email password hashed full_name hu hm hp hh hf hdup
    have hany : s.users.any (fun x => x.username == username || x.email == email) = true := by
      rw [List.any_eq_true]
      obtain ⟨u, hmem, hor⟩ := hdup
      exact ⟨u, hmem, by simpa using hor⟩
    simp [register, hu, hm, hp, hh, exec, hf, insertUser, hany]
  · intro L e username email password full_name hc
    obtain ⟨u, m, hashed, hu, hm, _, hst⟩ := register_created L e s _ _ _ _ hc
    rw [hst]
    exact ⟨_, hu.symm, hm.symm, rfl, rfl, rfl, rfl, rfl⟩

/-- Witness of C11: the sample store is reachable; registering `alice` again there is answered
400 and leaves the store as it was. -/
theorem register_unique_witness :
    Reachable sampleStore ∧
    (sampleStore.users.map User.username).Nodup ∧
    register (sampleLib "h3") (Env.calm 9) sampleStore (some "alice") (some "c@x.com")
        (some "pw") none =
      ⟨sampleStore, [⟨400, .error "Username or email already exists"⟩]⟩ :=
  have h := register_unique sampleStore sampleStore_reachable
  ⟨sampleStore_reachable, h.1.1,
    h.2.1 (sampleLib "h3") (Env.calm 9) "alice" "c@x.com" "pw" "h3" none (by decide) (by decide)
      (by decide) rfl rfl ⟨⟨1, "alice", "a@x.com", "h1", none, none, none, 0⟩,
        by simp [sampleStore], Or.inl rfl⟩⟩

/-! ## Claims on login and authentication -/

/-- C12. A login with a username and a password (both non-empty) whose password matches no
user of that username is answered 401 `Invalid credentials`, the same response whether or not
a user of that username exists, and the response carries no token; the store raising no
error. -/
theorem login_wrong_password (L : Lib) (e : Env) (s : Store) (username password : String)
    (hu : username ≠ "") (hp : password ≠ "") (hf : e.fails 0 = false)
    (hbad : ∀ u ∈ s.users, u.username = username → L.compare password u.password = false) :
    login L e s (some username) (some password) = ⟨401, .error "Invalid credentials"⟩ := by
  cases hsel : selectUserByName s username with
  | none => simp [login, hu, hp, hf, hsel]
  | some user =>
    have hmem := List.mem_of_find?_eq_some hsel
    have hname : user.username = username := by simpa using List.find?_some hsel
    have hc := hbad user hmem hname
    simp [login, hu, hp, hf, hsel, hc]

/-- Witness of C12: in the sample store a wrong password for `alice`, who exists, and for
`carol`, who does not, get the same 401. -/
theorem login_wrong_password_witness :
    login (sampleLib "h") (Env.calm 9) sampleStore (some "alice") (some "nope") =
      ⟨401, .error "Invalid credentials"⟩ ∧
    login (sampleLib "h") (Env.calm 9) sampleStore (some "carol") (some "nope") =
      ⟨401, .error "Invalid credentials"⟩ :=
  ⟨login_wrong_password (sampleLib "h") (Env.calm 9) sampleStore "alice" "nope" (by decide)
      (by decide) rfl (by decide),
    login_wrong_password (sampleLib "h") (Env.calm 9) sampleStore "carol" "nope" (by decide)
      (by decide) rfl (by decide)⟩

theorem splitSpace_no_space (cs : List Char) (h : ' ' ∉ cs) : splitSpace cs = [cs] := by
  induction cs with
  | nil => rfl
  | cons c cs ih =>
    have hc : c ≠ ' ' := fun hc => h (by simp [hc])
    have hcs : ' ' ∉ cs := fun hm => h (List.mem_cons_of_mem _ hm)
    simp [splitSpace, hc, ih hcs]

theorem splitSpace_word (w cs : List Char) (h : ' ' ∉ w) :
    splitSpace (w ++ ' ' :: cs) = w :: splitSpace cs := by
  induction w with
  | nil => simp [splitSpace]
  | cons c w ih =>
    have hc : c ≠ ' ' := fun hc => h (by simp [hc])
    have hw : ' ' ∉ w := fun hm => h (List.mem_cons_of_mem _ hm)
    simp [splitSpace, hc, ih hw]

/-- The header `Bearer <token>` of the client yields the token. -/
theorem tokenOf_bearer (token : String) (hsp : ' ' ∉ token.data) (hne : token.data ≠ []) :
    tokenOf (some ("Bearer " ++ token)) = some token := by
  have hd : ("Bearer " ++ token).data = "Bearer".data ++ ' ' :: token.data := by
    rw [String.data_append]
    rfl
  unfold tokenOf
  simp only [hd]
  rw [splitSpace_word _ _ (by decide), splitSpace_no_space _ hsp]
  cases htd : token.data with
  | nil => exact absurd htd hne
  | cons c cs =>
    simp only [List.getElem?_cons_succ, List.getElem?_cons_zero]
    congr 1
    rw [← htd]

/-- A header without a space carries no token. -/
theorem tokenOf_no_space (authHeader : String) (h : ' ' ∉ authHeader.data) :
    tokenOf (some authHeader) = none := by
  simp [tokenOf, splitSpace_no_space _ h]

theorem find_user_by_name (s : Store) (hq : UsersUnique s) (u : User) (hmem : u ∈ s.users) :
    selectUserByName s u.username = some u := by
  cases hf : selectUserByName s u.username with
  | none =>
    have := (List.find?_eq_none.mp hf) u hmem
    simp at this
  | some v =>
    have hv := List.mem_of_find?_eq_some hf
    have hname : v.username = u.username := by simpa using List.find?_some hf
    rw [List.inj_on_of_nodup_map hq.1 hv hmem hname]

/-- C13. Token round trip, given what `jsonwebtoken` promises of the token (`TokenSound`):
a login of a registered user with a matching password is answered 200 with a token, the
middleware accepts the header `Bearer <token>` with exactly that user's id and username, and
every protected route then runs for that user id; likewise for the token of a register call
answered 201, whose payload is the id and username of the row just created. -/
theorem token_round_trip (L : Lib) (e : Env) (s : Store) :
    (∀ (u : User) (password : String),
      u ∈ s.users → UsersUnique s → u.username ≠ "" → password ≠ "" → e.fails 0 = false →
      L.compare password u.password = true → TokenSound L u.id u.username →
      ∃ token,
        login L e s (some u.username) (some password) =
          ⟨200, .loggedIn "Login successful" token u.id u.username u.email u.full_name u.bio
            u.profile_picture⟩ ∧
        authenticateToken L (some ("Bearer " ++ token)) = .ok (u.id, u.username) ∧
        ∀ (e2 : Env) (random : Nat → Nat) (s2 : Store) (c : Call),
          serve L e2 random s2 (some ("Bearer " ++ token)) c = run e2 random s2 u.id c) ∧
    (∀ (username email password full_name : Option String),
      Created (register L e s username email password full_name) →
      (∀ name, username = some name →
        TokenSound L (nextId s.seq_users (s.users.map User.id)) name) →
      ∃ (token : String) (row : User) (m : String),
        (register L e s username email password full_name).sent =
          [⟨201, .registered "User registered successfully" token row.id row.username m
            full_name⟩] ∧
        (register L e s username email password full_name).store.users = s.users ++ [row] ∧
        authenticateToken L (some ("Bearer " ++ token)) = .ok (row.id, row.username) ∧
        ∀ (e2 : Env) (random : Nat → Nat) (s2 : Store) (c : Call),
          serve L e2 random s2 (some ("Bearer " ++ token)) c = run e2 random s2 row.id c) := by
  constructor
  · intro u password hmem hq hname hp hf hpw hts
    obtain ⟨hrt, hsp, hne⟩ := hts
    have hsel := find_user_by_name s hq u hmem
    have hauth : authenticateToken L (some ("Bearer " ++ L.sign u.id u.username)) =
        .ok (u.id, u.username) := by
      simp [authenticateToken, tokenOf_bearer _ hsp hne, hrt]
    refine ⟨L.sign u.id u.username, ?_, hauth, ?_⟩
    · simp [login, hname, hp, hf, hsel, hpw]
    · intro e2 random s2 c
      simp [serve, hauth]
  · intro username email password full_name hc hts
    obtain ⟨u, m, hashed, hu, hm, hany, hst⟩ := register_created L e s _ _ _ _ hc
    obtain ⟨hrt, hsp, hne⟩ := hts u hu
    have hauth : authenticateToken L
        (some ("Bearer " ++ L.sign (nextId s.seq_users (s.users.map User.id)) u)) =
        .ok (nextId s.seq_users (s.users.map User.id), u) := by
      simp [authenticateToken, tokenOf_bearer _ hsp hne, hrt]
    refine ⟨L.sign (nextId s.seq_users (s.users.map User.id)) u,
      User.mk (nextId s.seq_users (s.users.map User.id)) u m hashed full_name none none e.now,
      m, ?_, ?_, hauth, ?_⟩
    · subst hu hm
      unfold Created at hc
      cases password with
      | none => simp [register] at hc
      | some p =>
        by_cases hempty : (u == "" || m == "" || p == "") = true
        · simp [register, hempty] at hc
        · cases hh : L.hash p with
          | none => simp [register, hempty, hh] at hc
          | some hashed2 =>
            cases hf : e.fails 0 with
            | true => simp [register, hempty, hh, exec, hf] at hc
            | false => simp [register, hempty, hh, exec, hf, insertUser, hany]
    · rw [hst]
    · intro e2 random s2 c
      simp [serve, hauth]

/-- Witness of C13: alice logs in to the sample store with `pw1`, and her token `alice1` is
accepted with id 1 and username `alice`. -/
theorem token_round_trip_witness :
    ∃ token,
      login (sampleLib "h") (Env.calm 9) sampleStore (some "alice") (some "pw1") =
        ⟨200, .loggedIn "Login successful" token 1 "alice" "a@x.com" none none none⟩ ∧
      authenticateToken (sampleLib "h") (some ("Bearer " ++ token)) = .ok (1, "alice") :=
  have h := (token_round_trip (sampleLib "h") (Env.calm 9) sampleStore).1
    ⟨1, "alice", "a@x.com", "h1", none, none, none, 0⟩ "pw1" (by simp [sampleStore])
    (by simp [UsersUnique, sampleStore]) (by decide) (by decide) rfl (by decide)
    ⟨by decide, by decide, by decide⟩
  h.imp (fun _ hx => ⟨hx.1, hx.2.1⟩)

/-- A protected call without a token is answered 401 by the middleware alone. -/
theorem serve_no_token (L : Lib) (e : Env) (random : Nat → Nat) (s : Store)
    (authorization : Option String) (c : Call) (h : tokenOf authorization = none) :
    serve L e random s authorization c = ⟨s, [⟨401, .error "Access token required"⟩]⟩ := by
  simp [serve, authenticateToken, h]

/-- A protected call with a token that fails verification is answered 403 by the middleware
alone. -/
theorem serve_bad_token (L : Lib) (e : Env) (random : Nat → Nat) (s : Store)
    (authorization : Option String) (c : Call) (token : String)
    (h : tokenOf authorization = some token) (hv : L.verify token = none) :
    serve L e random s authorization c = ⟨s, [⟨403, .error "Invalid token"⟩]⟩ := by
  simp [serve, authenticateToken, h, hv]

/-- C14. Whatever route other than register and login a request matches, the server answers
it through `authenticateToken`: without an `Authorization` header, or with a header that has
no second part after a space, the one response is 401 `Access token required`; with a token
that fails verification it is 403 `Invalid token`; in both cases the store is returned as it
was and the response does not depend on it. -/
theorem server_rejects (L : Lib) (e : Env) (random : Nat → Nat) (s : Store) (req : HttpRequest)
    (ep : Endpoint) (params : List String) (o : Outcome)
    (hm : matchRoute req.method req.path = some (ep, params))
    (h1 : ep ≠ .register) (h2 : ep ≠ .login) (ho : server L e random s req = some o) :
    (req.authorization = none → o = ⟨s, [⟨401, .error "Access token required"⟩]⟩) ∧
    (∀ authHeader, req.authorization = some authHeader → ' ' ∉ authHeader.data →
      o = ⟨s, [⟨401, .error "Access token required"⟩]⟩) ∧
    (tokenOf req.authorization = none → o = ⟨s, [⟨401, .error "Access token required"⟩]⟩) ∧
    (∀ token, tokenOf req.authorization = some token → L.verify token = none →
      o = ⟨s, [⟨403, .error "Invalid token"⟩]⟩) := by
  have hserve : ∃ c, o = serve L e random s req.authorization c := by
    unfold server at ho
    rw [hm] at ho
    cases ep with
    | register => exact absurd rfl h1
    | login => exact absurd rfl h2
    | index => simp at ho
    | _ =>
      simp only [Option.map_eq_some'] at ho
      obtain ⟨c, _, hc⟩ := ho
      exact ⟨c, hc.symm⟩
  obtain ⟨c, rfl⟩ := hserve
  refine ⟨?_, ?_, ?_, ?_⟩
  · intro hnone
    exact serve_no_token L e random s _ c (by rw [hnone]; rfl)
  · intro authHeader hsome hsp
    exact serve_no_token L e random s _ c (by rw [hsome]; exact tokenOf_no_space _ hsp)
  · intro hnone
    exact serve_no_token L e random s _ c hnone
  · intro token htok hv
    exact serve_bad_token L e random s _ c token htok hv

/-- Witness of C14: `GET /api/posts` without a header on the sample store. -/
theorem server_rejects_witness :
    server (sampleLib "h") (Env.calm 9) (fun _ => 0) sampleStore
        (bareRequest .GET ["api", "posts"]) =
      some ⟨sampleStore, [⟨401, .error "Access token required"⟩]⟩ := by
  have ho : server (sampleLib "h") (Env.calm 9) (fun _ => 0) sampleStore
      (bareRequest .GET ["api", "posts"]) =
      some (serve (sampleLib "h") (Env.calm 9) (fun _ => 0) sampleStore none
        (.list_feed none none)) := by decide
  rw [ho]
  exact congrArg some ((server_rejects (sampleLib "h") (Env.calm 9) (fun _ => 0) sampleStore
    (bareRequest .GET ["api", "posts"]) .list_feed [] _ (by decide) (by decide) (by decide)
    ho).1 rfl)

/-- C17 (evaluation at the failing input). `GET /api/users/suggested` with the valid token of
bob: the route `/api/users/:id`, registered first, matches with `id = suggested`, so the
profile handler answers 404 `User not found`; the suggested-users handler, which would have
answered 200 with alice, never runs. -/
theorem suggested_route_shadowed :
    matchRoute .GET ["api", "users", "suggested"] = some (.get_profile, ["suggested"]) ∧
    authenticateToken (sampleLib "h") (some "Bearer bob2") = .ok (2, "bob") ∧
    server (sampleLib "h") (Env.calm 9) (fun _ => 0) sampleStore
        { bareRequest .GET ["api", "users", "suggested"] with
          authorization := some "Bearer bob2" } =
      some ⟨sampleStore, [⟨404, .error "User not found"⟩]⟩ ∧
    list_suggested (Env.calm 9) (fun _ => 0) sampleStore 2 =
      ⟨200, .users [{ id := 1, username := "alice", full_name := none, profile_picture := none,
                      is_following := false }]⟩ :=
  ⟨by decide, rfl, by decide, by decide⟩

/-! ## Claims on the feed -/

/-- The store with a post without author is reachable: tokens are never revoked, so the
deleted account can still post. -/
theorem orphanStore_reachable : Reachable orphanStore := by
  have r1 := Reachable.step _ (sampleLib "h1") (Env.calm 0)
    (.register (some "alice") (some "a@x.com") (some "pw") none) Reachable.init
  have r2 := Reachable.step _ (sampleLib "h") (Env.calm 1) (.delete_account 1) r1
  have r3 := Reachable.step _ (sampleLib "h") (Env.calm 2) (.create_post 1 (some "hello") none) r2
  exact r3

/-- Counterexample to C15 as stated: in a reachable store whose only post has no author row,
page 1 of the feed is empty, although the list of all posts has a post at position 0. -/
theorem feed_skips_post_without_author :
    Reachable orphanStore ∧
    orphanStore.posts =
      [{ id := 1, user_id := 1, content := "hello", image_url := none, created_at := 2 }] ∧
    list_feed (Env.calm 9) orphanStore 1 (some 1) (some 10) = ⟨200, .posts []⟩ :=
  ⟨orphanStore_reachable, rfl, by decide⟩

/-- Under `PRIMARY KEY` on `users.id` a post joins with at most one user row. -/
theorem author_rows (s : Store) (hk : UserIdsUnique s) (a : Nat) :
    (s.users.filter (fun u => a == u.id) = [] ∧ s.users.any (fun u => u.id == a) = false) ∨
    (∃ u, s.users.filter (fun u => a == u.id) = [u] ∧ s.users.any (fun u => u.id == a) = true) := by
  have hle := length_filter_key_le_one User.id s.users hk a
  have hpred : (fun x : User => decide (x.id = a)) = (fun u : User => a == u.id) := by
    funext u
    rw [Bool.eq_iff_iff]
    simp only [decide_eq_true_eq, beq_iff_eq]
    exact eq_comm
  rw [hpred] at hle
  cases hfl : s.users.filter (fun u => a == u.id) with
  | nil =>
    left
    refine ⟨rfl, ?_⟩
    rw [List.any_eq_false]
    intro u hu hid
    have : u ∈ s.users.filter (fun u => a == u.id) := by
      rw [List.mem_filter]
      refine ⟨hu, ?_⟩
      simp only [beq_iff_eq] at hid ⊢
      exact hid.symm
    rw [hfl] at this
    cases this
  | cons u rest =>
    right
    cases rest with
    | nil =>
      refine ⟨u, rfl, ?_⟩
      have hu : u ∈ s.users.filter (fun u => a == u.id) := by rw [hfl]; simp
      rw [List.any_eq_true]
      have hid := (List.mem_filter.mp hu).2
      refine ⟨u, (List.mem_filter.mp hu).1, ?_⟩
      simp only [beq_iff_eq] at hid ⊢
      exact hid.symm
    | cons v rest2 =>
      rw [hfl] at hle
      simp at hle

/-- The ids of the joined rows are the ids of the posts that have an author row. -/
theorem postsWithAuthor_ids (s : Store) (hk : UserIdsUnique s) :
    (postsWithAuthor s).map (fun pu => pu.1.id) =
      (s.posts.filter (fun p => s.users.any (fun u => u.id == p.user_id))).map Post.id := by
  unfold postsWithAuthor
  induction s.posts with
  | nil => rfl
  | cons p ps ih =>
    rw [List.flatMap_cons, List.map_append, ih]
    rcases author_rows s hk p.user_id with ⟨hnil, hany⟩ | ⟨u, hone, hany⟩
    · simp [hnil, List.filter_cons, hany]
    · simp [hone, List.filter_cons, hany]

theorem feedAll_sorted (s : Store) (viewer : Nat) :
    List.Sorted (fun a b : FeedRow => b.created_at ≤ a.created_at) (feedAll s viewer) := by
  unfold feedAll postsNewestFirst
  rw [List.Sorted, List.pairwise_map]
  haveI : IsTotal (Post × User) (fun a b => b.1.created_at ≤ a.1.created_at) :=
    ⟨fun a b => Nat.le_total _ _⟩
  haveI : IsTrans (Post × User) (fun a b => b.1.created_at ≤ a.1.created_at) :=
    ⟨fun a b c hab hbc => Nat.le_trans hbc hab⟩
  exact List.sorted_insertionSort (fun a b : Post × User => b.1.created_at ≤ a.1.created_at) _

/-- A natural number below 2^53 is in the range `LIMIT ?` and `OFFSET ?` take. -/
theorem limitArg_small (n : Nat) (h : n < 2 ^ 53) : limitArg (.fin (n : Int)) = some (n : Int) := by
  have hpow : 2 ^ 53 < 2 ^ 63 := by norm_num
  have hlt : (n : Int).natAbs < 2 ^ 63 := by
    rw [Int.natAbs_ofNat]
    exact lt_trans h hpow
  exact if_pos hlt

/-- The feed response for a page and a limit that are at least 1, where page * limit is below
2^53. -/
theorem list_feed_page (e : Env) (s : Store) (viewer page limit : Nat)
    (hp : 1 ≤ page) (hl : 1 ≤ limit) (hb : page * limit < 2 ^ 53) (hf : e.fails 0 = false) :
    list_feed e s viewer (some (page : Int)) (some (limit : Int)) =
      ⟨200, .posts (((feedAll s viewer).drop ((page - 1) * limit)).take limit)⟩ := by
  have hp0 : (page : Int) ≠ 0 := by omega
  have hl0 : (limit : Int) ≠ 0 := by omega
  have hple : page ≤ page * limit := Nat.le_mul_of_pos_right page hl
  have hlle : limit ≤ page * limit := Nat.le_mul_of_pos_left limit hp
  have hole : (page - 1) * limit ≤ page * limit := Nat.mul_le_mul_right limit (Nat.sub_le page 1)
  have hpb : page < 2 ^ 53 := lt_of_le_of_lt hple hb
  have hlb : limit < 2 ^ 53 := lt_of_le_of_lt hlle hb
  have hob : (page - 1) * limit < 2 ^ 53 := lt_of_le_of_lt hole hb
  have h1 : ((page : Int) - 1) = ((page - 1 : Nat) : Int) := by omega
  have hsub : jsSub (.fin (page : Int)) (.fin 1) = .fin ((page - 1 : Nat) : Int) := by
    show roundDouble ((page : Int) - 1) = _
    rw [h1]
    exact roundDouble_small _ (by omega)
  have hmul : jsMul (.fin ((page - 1 : Nat) : Int)) (.fin (limit : Int)) =
      .fin (((page - 1) * limit : Nat) : Int) := by
    show roundDouble (((page - 1 : Nat) : Int) * (limit : Int)) = _
    rw [← Int.natCast_mul]
    exact roundDouble_small _ hob
  have hlim : limitArg (.fin (limit : Int)) = some (limit : Int) := limitArg_small _ hlb
  have hoffs : limitArg (.fin (((page - 1) * limit : Nat) : Int)) =
      some (((page - 1) * limit : Nat) : Int) := limitArg_small _ hob
  have hneg : ¬ ((limit : Int) < 0) := by omega
  simp only [list_feed, parseIntNum, roundDouble_small _ hpb, roundDouble_small _ hlb, jsOr, hp0,
    hl0, if_false, hsub, hmul, hlim, hoffs, hf, Bool.false_eq_true, feedQuery, limitOffset,
    hneg, Int.toNat_ofNat, feedAll, List.map_take, List.map_drop]

/-- Pages of `n` rows, one after the other, make up the first `k * n` rows. -/
theorem pages_concat {α : Type} (l : List α) (n k : Nat) :
    (List.range k).flatMap (fun i => (l.drop (i * n)).take n) = l.take (k * n) := by
  induction k with
  | zero => simp
  | succ k ih =>
    rw [List.range_succ, List.flatMap_append, ih, Nat.succ_mul, List.take_add]
    simp

/-- C15 (amended). For page >= 1 and limit >= 1 with page * limit below 2^53, the store raising
no error and `users.id` being a key: `list_feed` returns the rows at positions (page-1)*limit
to (page-1)*limit + limit - 1 of the list that has one row for each post whose author row
exists, sorted by creation time descending; a page has at most limit rows, in descending
creation order; and pages 1..k one after the other, for k * limit below 2^53, are the first
k*limit rows of that list. -/
theorem feed_pages (e : Env) (s : Store) (viewer page limit : Nat)
    (hp : 1 ≤ page) (hl : 1 ≤ limit) (hb : page * limit < 2 ^ 53) (hf : e.fails 0 = false)
    (hk : UserIdsUnique s) :
    list_feed e s viewer (some (page : Int)) (some (limit : Int)) =
      ⟨200, .posts (((feedAll s viewer).drop ((page - 1) * limit)).take limit)⟩ ∧
    List.Perm ((feedAll s viewer).map FeedRow.id)
      ((s.posts.filter (fun p => s.users.any (fun u => u.id == p.user_id))).map Post.id) ∧
    List.Sorted (fun a b : FeedRow => b.created_at ≤ a.created_at) (feedAll s viewer) ∧
    (feedRows (list_feed e s viewer (some (page : Int)) (some (limit : Int)))).length ≤ limit ∧
    List.Sorted (fun a b : FeedRow => b.created_at ≤ a.created_at)
      (feedRows (list_feed e s viewer (some (page : Int)) (some (limit : Int)))) ∧
    ∀ k : Nat, k * limit < 2 ^ 53 →
      (List.range k).flatMap (fun i =>
          feedRows (list_feed e s viewer (some ((i + 1 : Nat) : Int)) (some (limit : Int)))) =
        (feedAll s viewer).take (k * limit) := by
  have hpage := list_feed_page e s viewer page limit hp hl hb hf
  refine ⟨hpage, ?_, feedAll_sorted s viewer, ?_, ?_, ?_⟩
  · have hperm : List.Perm (postsNewestFirst (postsWithAuthor s)) (postsWithAuthor s) :=
      List.perm_insertionSort _ _
    have h1 : (feedAll s viewer).map FeedRow.id =
        (postsNewestFirst (postsWithAuthor s)).map (fun pu => pu.1.id) := by
      simp [feedAll, feedRow, Function.comp_def]
    rw [h1, ← postsWithAuthor_ids s hk]
    exact hperm.map _
  · rw [hpage]
    exact List.length_take_le _ _
  · rw [hpage]
    exact List.Pairwise.sublist
      ((List.take_sublist _ _).trans (List.drop_sublist _ _)) (feedAll_sorted s viewer)
  · intro k hkb
    rw [← pages_concat (feedAll s viewer) limit k]
    apply List.flatMap_congr
    intro i hi
    have hik : i + 1 ≤ k := by
      have := List.mem_range.mp hi
      omega
    have hib : (i + 1) * limit < 2 ^ 53 :=
      lt_of_le_of_lt (Nat.mul_le_mul_right limit hik) hkb
    rw [list_feed_page e s viewer (i + 1) limit (by omega) hl hib hf]
    simp [feedRows]

/-- Witness of C15 (amended): page 1 with limit 1 of the feed of the sample store is the one
post, with its annotations for viewer 2. -/
theorem feed_pages_witness :
    UserIdsUnique sampleStore ∧
    list_feed (Env.calm 9) sampleStore 2 (some 1) (some 1) =
      ⟨200, .posts (((feedAll sampleStore 2).drop ((1 - 1) * 1)).take 1)⟩ ∧
    feedAll sampleStore 2 =
      [{ id := 1, user_id := 1, content := "hello", image_url := none, created_at := 2,
         username := "alice", full_name := none, profile_picture := none,
         likes_count := 1, comments_count := 1, is_liked := true }] :=
  have hk : UserIdsUnique sampleStore := by simp [UserIdsUnique, sampleStore]
  ⟨hk, (feed_pages (Env.calm 9) sampleStore 2 1 1 (by decide) (by decide) (by decide) rfl hk).1,
    by decide⟩

set_option exponentiation.threshold 1100 in
/-- Beyond the bound of C15 (amended) the feed can fail: for `limit=100000000000000000000` the
number bound to `LIMIT ?` is 10^20, which SQLite does not take, and for `page=4294967297` with
`limit=4294967296` the offset is 2^64; the answer is 500 in the sample store although no
statement raises a data-independent error. -/
theorem feed_limit_out_of_range :
    list_feed (Env.calm 9) sampleStore 2 (some 1) (some (10 ^ 20)) =
      ⟨500, .error "Failed to fetch posts"⟩ ∧
    list_feed (Env.calm 9) sampleStore 2 (some (2 ^ 32 + 1)) (some (2 ^ 32)) =
      ⟨500, .error "Failed to fetch posts"⟩ := by
  decide

/-- C16. Each row of a feed response carries the number of like rows of its post, the number
of comment rows of its post, and `is_liked` true exactly when a like row of the viewer on the
post exists.  Hence after bob likes a post that had no likes, each row of that post in bob's
feed has `is_liked` true and `likes_count` 1, and after bob toggles again `is_liked` false and
`likes_count` 0. -/
theorem feed_annotations (e : Env) (s : Store) (viewer : Nat) (page limit : Option Int) :
    (∀ row ∈ feedRows (list_feed e s viewer page limit),
      row.likes_count = (s.likes.filter (fun l => decide (l.post_id = row.id))).length ∧
      row.comments_count = (s.comments.filter (fun c => decide (c.post_id = row.id))).length ∧
      (row.is_liked = true ↔ ∃ l ∈ s.likes, l.post_id = row.id ∧ l.user_id = viewer)) ∧
    (∀ (e1 e2 : Env) (postId : Nat),
      likes_count s postId = 0 →
      Succeeded (toggle_like e1 s viewer postId) →
      Succeeded (toggle_like e2 (toggle_like e1 s viewer postId).store viewer postId) →
      (∀ row ∈ feedRows (list_feed e (toggle_like e1 s viewer postId).store viewer page limit),
        row.id = postId → row.is_liked = true ∧ row.likes_count = 1) ∧
      (∀ row ∈ feedRows (list_feed e
          (toggle_like e2 (toggle_like e1 s viewer postId).store viewer postId).store
          viewer page limit),
        row.id = postId → row.is_liked = false ∧ row.likes_count = 0)) := by
  have hrow : ∀ (st : Store) (row : FeedRow), row ∈ feedRows (list_feed e st viewer page limit) →
      row.likes_count = likes_count st row.id ∧ row.comments_count = comments_count st row.id ∧
      row.is_liked = is_liked st viewer row.id := by
    intro st row hmem
    unfold list_feed at hmem
    cases hf : e.fails 0 with
    | true => simp [hf, feedRows] at hmem
    | false =>
      simp only [hf, Bool.false_eq_true, if_false] at hmem
      cases hl : limitArg (jsOr (parseIntNum limit) (.fin 10)) with
      | none => simp [hl, feedRows] at hmem
      | some l =>
        cases ho : limitArg (jsMul (jsSub (jsOr (parseIntNum page) (.fin 1)) (.fin 1))
            (jsOr (parseIntNum limit) (.fin 10))) with
        | none => simp [hl, ho, feedRows] at hmem
        | some o =>
          simp only [hl, ho, feedRows, feedQuery, List.mem_map] at hmem
          obtain ⟨pu, _, rfl⟩ := hmem
          exact ⟨rfl, rfl, rfl⟩
  constructor
  · intro row hmem
    obtain ⟨h1, h2, h3⟩ := hrow s row hmem
    refine ⟨?_, ?_, ?_⟩
    · rw [h1, likes_count]
      congr 2
    · rw [h2, comments_count]
      congr 2
    · rw [h3, is_liked, any_likeMatches_iff]
  · intro e1 e2 postId hzero hs1 hs2
    obtain ⟨a0, a1⟩ := toggle_like_succeeded _ _ _ _ hs1
    obtain ⟨b0, b1⟩ := toggle_like_succeeded _ _ _ _ hs2
    have hnone : ∀ l ∈ s.likes, l.post_id ≠ postId := by
      intro l hl hid
      have : l ∈ s.likes.filter (fun l => l.post_id == postId) := by
        rw [List.mem_filter]
        exact ⟨hl, by simpa using hid⟩
      unfold likes_count at hzero
      rw [List.length_eq_zero] at hzero
      rw [hzero] at this
      cases this
    have hfilter : s.likes.filter (fun l => l.post_id == postId) = [] := by
      unfold likes_count at hzero
      exact List.length_eq_zero.mp hzero
    have hx : s.likes.any (likeMatches postId viewer) = false := by
      rw [List.any_eq_false]
      intro l hl hm
      exact hnone l hl ((likeMatches_iff postId viewer l).mp hm).1
    have hst1 := toggle_like_absent e1 s viewer postId a0 a1 hx
    have hsome : (toggle_like e1 s viewer postId).store.likes.any (likeMatches postId viewer) =
        true := by
      rw [hst1]
      simp [likeMatches]
    have hst2 := toggle_like_present e2 _ viewer postId b0 b1 hsome
    constructor
    · intro row hmem hid
      obtain ⟨h1, _, h3⟩ := hrow _ row hmem
      rw [h1, h3, hid]
      refine ⟨hsome, ?_⟩
      rw [hst1]
      simp [likes_count, List.filter_append, hfilter]
    · intro row hmem hid
      obtain ⟨h1, _, h3⟩ := hrow _ row hmem
      rw [h1, h3, hid, hst2]
      constructor
      · simp only [is_liked]
        rw [List.any_eq_false]
        intro l hl
        have := (List.mem_filter.mp hl).2
        simpa using this
      · rw [hst1, likes_count, List.length_eq_zero, List.filter_eq_nil_iff]
        intro l hl hpid
        obtain ⟨hl1, hl2⟩ := List.mem_filter.mp hl
        rcases List.mem_append.mp hl1 with hold | hnew
        · exact hnone l hold (by simpa using hpid)
        · simp only [List.mem_singleton] at hnew
          subst hnew
          simp [likeMatches] at hl2

/-- Witness of C16: in the store where alice posted `hello`, bob (user 2) likes post 1 and his
feed row shows `is_liked` true and `likes_count` 1; he toggles again and it shows false
and 0. -/
theorem feed_annotations_witness :
    likes_count helloStore 1 = 0 ∧
    (feedRows (list_feed (Env.calm 9) (toggle_like (Env.calm 7) helloStore 2 1).store 2
        none none)).map (fun r => (r.id, r.is_liked, r.likes_count)) = [(1, true, 1)] ∧
    (∀ row ∈ feedRows (list_feed (Env.calm 9)
        (toggle_like (Env.calm 8) (toggle_like (Env.calm 7) helloStore 2 1).store 2 1).store 2
        none none),
      row.id = 1 → row.is_liked = false ∧ row.likes_count = 0) :=
  ⟨by decide, by decide,
    ((feed_annotations (Env.calm 9) helloStore 2 none none).2 (Env.calm 7) (Env.calm 8) 1
      (by decide) (by decide) (by decide)).2⟩

/-! ## Claims on suggestions, search and uploads -/

/-- C18. The suggested-users response, `users.id` being a key: at most 5 rows, each the
summary of an existing user who is not the viewer and whom the viewer does not follow, so
with `is_following` false, and no user twice. -/
theorem suggested_users_sound (e : Env) (random : Nat → Nat) (s : Store) (viewer : Nat)
    (rows : List UserSummary) (hk : UserIdsUnique s)
    (h : list_suggested e random s viewer = ⟨200, .users rows⟩) :
    rows.length ≤ 5 ∧
    (∀ r ∈ rows,
      (∃ u ∈ s.users, r = summary s viewer u) ∧ r.id ≠ viewer ∧
      (¬∃ f ∈ s.followers, f.follower_id = viewer ∧ f.following_id = r.id) ∧
      r.is_following = false) ∧
    (rows.map UserSummary.id).Nodup := by
  have hrows : rows = suggestedQuery random s viewer := by
    unfold list_suggested at h
    cases hf : e.fails 0 with
    | true => simp [hf] at h
    | false => simpa [hf] using h.symm
  subst hrows
  have hsnd : ∀ (l : List User),
      (l.enum.map (fun ku => (random ku.1, ku.2))).map Prod.snd = l := by
    intro l
    rw [List.map_map]
    exact List.enum_map_snd l
  have hperm := List.perm_insertionSort (fun a b : Nat × User => a.1 ≤ b.1)
    ((s.users.filter (fun u => u.id != viewer && !(followedBy s viewer).contains u.id)).enum.map
      (fun ku => (random ku.1, ku.2)))
  refine ⟨?_, ?_, ?_⟩
  · simp only [suggestedQuery, List.length_map]
    exact List.length_take_le _ _
  · intro r hr
    simp only [suggestedQuery, List.mem_map] at hr
    obtain ⟨ku, hku, rfl⟩ := hr
    have h1 := hperm.mem_iff.mp (List.mem_of_mem_take hku)
    have h2 : ku.2 ∈ s.users.filter
        (fun u => u.id != viewer && !(followedBy s viewer).contains u.id) := by
      rw [← hsnd (s.users.filter _)]
      exact List.mem_map_of_mem Prod.snd h1
    obtain ⟨hmem, hcond⟩ := List.mem_filter.mp h2
    simp only [Bool.and_eq_true, bne_iff_ne, ne_eq, Bool.not_eq_true', followedBy] at hcond
    obtain ⟨hne, hnf⟩ := hcond
    have hnot : ¬∃ f ∈ s.followers, f.follower_id = viewer ∧ f.following_id = ku.2.id := by
      rintro ⟨f, hf, hv, hid⟩
      have : ku.2.id ∈ (s.followers.filter (fun f => f.follower_id == viewer)).map
          Follow.following_id :=
        List.mem_map.mpr ⟨f, List.mem_filter.mpr ⟨hf, by simpa using hv⟩, hid⟩
      rw [List.contains_eq_any_beq, List.any_eq_false] at hnf
      exact hnf _ this (by simp)
    refine ⟨⟨ku.2, hmem, rfl⟩, hne, hnot, ?_⟩
    show is_following s viewer ku.2.id = false
    rw [is_following, ← Bool.not_eq_true, any_followMatches_iff]
    exact hnot
  · have hids : (suggestedQuery random s viewer).map UserSummary.id =
        (((List.insertionSort (fun a b : Nat × User => a.1 ≤ b.1)
          ((s.users.filter
              (fun u => u.id != viewer && !(followedBy s viewer).contains u.id)).enum.map
            (fun ku => (random ku.1, ku.2)))).take 5).map Prod.snd).map User.id := by
      simp [suggestedQuery, summary, Function.comp_def]
    rw [hids]
    have hsub : List.Sublist
        ((((List.insertionSort (fun a b : Nat × User => a.1 ≤ b.1)
          ((s.users.filter
              (fun u => u.id != viewer && !(followedBy s viewer).contains u.id)).enum.map
            (fun ku => (random ku.1, ku.2)))).take 5).map Prod.snd).map User.id)
        (((List.insertionSort (fun a b : Nat × User => a.1 ≤ b.1)
          ((s.users.filter
              (fun u => u.id != viewer && !(followedBy s viewer).contains u.id)).enum.map
            (fun ku => (random ku.1, ku.2)))).map Prod.snd).map User.id) :=
      ((List.take_sublist _ _).map _).map _
    refine List.Nodup.sublist hsub ?_
    have hp2 := (hperm.map Prod.snd).map User.id
    rw [hsnd] at hp2
    rw [hp2.nodup_iff]
    exact List.Nodup.sublist ((List.filter_sublist _).map _) hk

/-- Witness of C18: bob, who follows nobody in the sample store, is suggested alice. -/
theorem suggested_users_sound_witness :
    UserIdsUnique sampleStore ∧
    list_suggested (Env.calm 9) (fun _ => 0) sampleStore 2 =
      ⟨200, .users [summary sampleStore 2
        ⟨1, "alice", "a@x.com", "h1", none, none, none, 0⟩]⟩ ∧
    ([summary sampleStore 2 ⟨1, "alice", "a@x.com", "h1", none, none, none, 0⟩].map
      UserSummary.id).Nodup :=
  have hk : UserIdsUnique sampleStore := by simp [UserIdsUnique, sampleStore]
  have hq : list_suggested (Env.calm 9) (fun _ => 0) sampleStore 2 =
      ⟨200, .users [summary sampleStore 2
        ⟨1, "alice", "a@x.com", "h1", none, none, none, 0⟩]⟩ := by decide
  ⟨hk, hq, (suggested_users_sound (Env.calm 9) (fun _ => 0) sampleStore 2 _ hk hq).2.2⟩

/-- Counterexample to C19 as stated: the query `_` is read by `LIKE` as a wildcard, so the
search returns alice and bob although neither username contains an underscore (and neither
user has a full name). -/
theorem search_underscore_matches_all :
    search_users (Env.calm 9) sampleStore 1 "_" =
      ⟨200, .users
        [{ id := 1, username := "alice", full_name := none, profile_picture := none,
           is_following := false },
         { id := 2, username := "bob", full_name := none, profile_picture := none,
           is_following := true }]⟩ ∧
    (∀ u ∈ sampleStore.users, nameContains "_" u = false) := by
  decide

/-- A pattern of plain characters followed by `%` matches the texts that begin with the
characters, up to the case of ASCII letters. -/
theorem likeChars_plain (q : List Char) (h1 : '%' ∉ q) (h2 : '_' ∉ q) (t : List Char) :
    likeChars (q ++ ['%']) t = true ↔ q.map Char.toLower <+: t.map Char.toLower := by
  induction q generalizing t with
  | nil =>
    simp only [List.nil_append, likeChars, if_true, List.map_nil, List.nil_prefix, iff_true]
    rw [List.any_eq_true]
    exact ⟨[], (List.mem_tails _ _).mpr List.nil_suffix, rfl⟩
  | cons p q ih =>
    have hp1 : p ≠ '%' := fun hp => h1 (by simp [hp])
    have hp2 : p ≠ '_' := fun hp => h2 (by simp [hp])
    have hq1 : '%' ∉ q := fun hm => h1 (List.mem_cons_of_mem _ hm)
    have hq2 : '_' ∉ q := fun hm => h2 (List.mem_cons_of_mem _ hm)
    cases t with
    | nil => simp [likeChars, hp1]
    | cons c cs =>
      simp only [List.cons_append, likeChars, hp1, if_false, List.map_cons,
        List.cons_prefix_cons, Bool.and_eq_true, Bool.or_eq_true, beq_iff_eq, hp2, false_or]
      exact and_congr_right (fun _ => ih hq1 hq2 cs)

/-- A pattern `%q%` with plain `q` matches the texts that contain `q`, up to the case of ASCII
letters. -/
theorem likeChars_contains (q t : List Char) (h1 : '%' ∉ q) (h2 : '_' ∉ q) :
    likeChars ('%' :: q ++ ['%']) t = decide (q.map Char.toLower <:+: t.map Char.toLower) := by
  rw [Bool.eq_iff_iff]
  simp only [List.cons_append, likeChars, if_true, decide_eq_true_eq,
    List.any_eq_true, List.mem_tails, List.infix_iff_prefix_suffix]
  have hplain := likeChars_plain q h1 h2
  constructor
  · rintro ⟨t2, hsuf, hm⟩
    exact ⟨t2.map Char.toLower, (hplain t2).mp hm, hsuf.map _⟩
  · rintro ⟨t2, hpre, a, ha⟩
    obtain ⟨l1, l2, hx, _, h2⟩ := List.map_eq_append_iff.mp ha.symm
    refine ⟨l2, ⟨l1, hx.symm⟩, (hplain l2).mpr ?_⟩
    rw [h2]
    exact hpre

/-- A pattern without U+0000 is read by `LIKE` to its end. -/
theorem uptoNul_pattern (q : List Char) (h : Char.ofNat 0 ∉ q) :
    uptoNul ('%' :: q ++ ['%']) = '%' :: q ++ ['%'] := by
  unfold uptoNul
  rw [List.takeWhile_eq_self_iff]
  intro c hc
  have hne : c ≠ Char.ofNat 0 := by
    intro heq
    subst heq
    rcases List.mem_cons.mp hc with h0 | h0
    · exact absurd h0 (by decide)
    · rcases List.mem_append.mp h0 with h0 | h0
      · exact h h0
      · exact absurd (List.mem_singleton.mp h0) (by decide)
  simpa using hne

/-- For a plain query, `LIKE` with the pattern `%query%` is containment of the query in the
text read up to its first U+0000. -/
theorem likeMatch_contains (q x : String) (hw : PlainQuery q) :
    likeMatch ('%' :: q.data ++ ['%']) x.data = containsNoCase q x := by
  unfold likeMatch containsNoCase
  rw [uptoNul_pattern q.data hw.2.2]
  exact likeChars_contains q.data (uptoNul x.data) hw.1 hw.2.1

theorem searchMatches_eq (query : String) (hw : PlainQuery query) (u : User) :
    searchMatches query u = nameContains query u := by
  unfold searchMatches nameContains
  rw [likeMatch_contains query u.username hw]
  cases u.full_name with
  | none => rfl
  | some n => simp only [likeMatch_contains query n hw]

/-- The search route answers a request for `/api/users/search/<query>` unless the query is
empty or one of the words `posts`, `followers`, `following`. -/
theorem search_route (query : String) (h0 : query ≠ "")
    (hw : query ∉ ["posts", "followers", "following"]) :
    matchRoute .GET ["api", "users", "search", query] = some (.search_users, [query]) := by
  simp only [List.mem_cons, List.mem_singleton, List.not_mem_nil, or_false, not_or] at hw
  obtain ⟨h1, h2, h3⟩ := hw
  have e0 : (query == "") = false := by simpa using h0
  have e1 : ("posts" == query) = false := by simpa using fun h => h1 h.symm
  have e2 : ("followers" == query) = false := by simpa using fun h => h2 h.symm
  have e3 : ("following" == query) = false := by simpa using fun h => h3 h.symm
  simp [matchRoute, routes, matchPath, e0, e1, e2, e3]

/-- The three words for which a request to `/api/users/search/<query>` is answered by a route
registered before the search route, with `search` as the user id. -/
theorem search_route_shadowed :
    matchRoute .GET ["api", "users", "search", "posts"] = some (.list_user_posts, ["search"]) ∧
    matchRoute .GET ["api", "users", "search", "followers"] =
      some (.list_followers, ["search"]) ∧
    matchRoute .GET ["api", "users", "search", "following"] =
      some (.list_following, ["search"]) ∧
    matchRoute .GET ["api", "users", "search", ""] = none := by
  decide

/-- A query with U+0000 is not read to its end: the pattern for the query made of the one
character U+0000 is `%`, which every username matches, although no username of the sample
store contains U+0000. -/
theorem search_nul_matches_all :
    search_users (Env.calm 9) sampleStore 1 (String.mk [Char.ofNat 0]) =
      ⟨200, .users
        [{ id := 1, username := "alice", full_name := none, profile_picture := none,
           is_following := false },
         { id := 2, username := "bob", full_name := none, profile_picture := none,
           is_following := true }]⟩ ∧
    (∀ u ∈ sampleStore.users, Char.ofNat 0 ∉ u.username.data) := by
  decide

/-- C19 (amended). The search response, the store raising no error, is for every query the
first 20, in username order, of the users whose username or full name matches `%query%`
under `LIKE`, so it has at most 20 rows, and each row has `is_following` true exactly when
the viewer follows that user.  For a query without `%`, `_` and U+0000 the users that match
are those whose username or full name, read up to its first U+0000, contains the query up
to the case of ASCII letters, and only such users are in the response.  The search route
answers for every query that is not empty and not one of `posts`, `followers`,
`following`. -/
theorem search_users_sound (e : Env) (s : Store) (viewer : Nat) (query : String)
    (rows : List UserSummary)
    (h : search_users e s viewer query = ⟨200, .users rows⟩) :
    rows =
      ((byUsername (s.users.filter (searchMatches query))).take 20).map (summary s viewer) ∧
    List.Perm (byUsername (s.users.filter (searchMatches query)))
      (s.users.filter (searchMatches query)) ∧
    List.Sorted (fun a b : User => a.username.data ≤ b.username.data)
      (byUsername (s.users.filter (searchMatches query))) ∧
    rows.length ≤ 20 ∧
    (∀ r ∈ rows,
      (r.is_following = true ↔
        ∃ f ∈ s.followers, f.follower_id = viewer ∧ f.following_id = r.id)) ∧
    (PlainQuery query →
      (∀ u : User, searchMatches query u = nameContains query u) ∧
      rows =
        ((byUsername (s.users.filter (nameContains query))).take 20).map (summary s viewer) ∧
      (∀ r ∈ rows, ∃ u ∈ s.users, r = summary s viewer u ∧ nameContains query u = true)) ∧
    (query ≠ "" → query ∉ ["posts", "followers", "following"] →
      matchRoute .GET ["api", "users", "search", query] = some (.search_users, [query])) := by
  have hrows : rows =
      ((byUsername (s.users.filter (searchMatches query))).take 20).map (summary s viewer) := by
    unfold search_users at h
    cases hf : e.fails 0 with
    | true => simp [hf] at h
    | false =>
      simp only [hf, Bool.false_eq_true, if_false, Response.mk.injEq, Body.users.injEq,
        true_and, searchQuery] at h
      exact h.symm
  have hmem : ∀ r ∈ rows, ∃ u ∈ s.users, r = summary s viewer u ∧ searchMatches query u = true := by
    intro r hr
    rw [hrows] at hr
    obtain ⟨u, hu, rfl⟩ := List.mem_map.mp hr
    have h1 := (List.perm_insertionSort _ _).mem_iff.mp (List.mem_of_mem_take hu)
    exact ⟨u, (List.mem_filter.mp h1).1, rfl, (List.mem_filter.mp h1).2⟩
  haveI : IsTotal User (fun a b => a.username.data ≤ b.username.data) :=
    ⟨fun a b => le_total _ _⟩
  haveI : IsTrans User (fun a b => a.username.data ≤ b.username.data) :=
    ⟨fun _ _ _ hab hbc => le_trans hab hbc⟩
  refine ⟨hrows, List.perm_insertionSort _ _, List.sorted_insertionSort _ _, ?_, ?_, ?_,
    search_route query⟩
  · rw [hrows, List.length_map]
    exact List.length_take_le _ _
  · intro r hr
    obtain ⟨u, _, rfl, _⟩ := hmem r hr
    show is_following s viewer u.id = true ↔ _
    rw [is_following, any_followMatches_iff]
    rfl
  · intro hw
    have hfun : searchMatches query = nameContains query := funext (searchMatches_eq query hw)
    refine ⟨searchMatches_eq query hw, ?_, ?_⟩
    · rw [← hfun]
      exact hrows
    · intro r hr
      obtain ⟨u, hu, hr2, hm⟩ := hmem r hr
      exact ⟨u, hu, hr2, by rw [← hfun]; exact hm⟩

/-- Witness of C19 (amended): the query `LI` finds alice in the sample store. -/
theorem search_users_sound_witness :
    PlainQuery "LI" ∧
    search_users (Env.calm 9) sampleStore 2 "LI" =
      ⟨200, .users [{ id := 1, username := "alice", full_name := none,
                      profile_picture := none, is_following := false }]⟩ ∧
    (∀ r ∈ [UserSummary.mk 1 "alice" none none false],
      ∃ u ∈ sampleStore.users, r = summary sampleStore 2 u ∧ nameContains "LI" u = true) ∧
    matchRoute .GET ["api", "users", "search", "LI"] = some (.search_users, ["LI"]) :=
  have hw : PlainQuery "LI" := ⟨by decide, by decide, by decide⟩
  have hq : search_users (Env.calm 9) sampleStore 2 "LI" =
      ⟨200, .users [{ id := 1, username := "alice", full_name := none,
                      profile_picture := none, is_following := false }]⟩ := by decide
  have h := search_users_sound (Env.calm 9) sampleStore 2 "LI" _ hq
  ⟨hw, hq, (h.2.2.2.2.2.1 hw).2.2, h.2.2.2.2.2.2 (by decide) (by decide)⟩

/-- Counterexample to C20 as stated: alice creates a post with a `text/plain` file; the upload
is refused and the store is unchanged, but the response is 500 `Something went wrong!`, not
400. -/
theorem rejected_upload_is_500 :
    serve (sampleLib "h") (Env.calm 9) (fun _ => 0) sampleStore (some "Bearer alice1")
        (.create_post (some "hi") (some ⟨"notes.txt", "text/plain", 10⟩) "1-1.txt") =
      ⟨sampleStore, [⟨500, .error "Something went wrong!"⟩]⟩ := by
  decide

/-- C20 (amended). For every create-post or update-profile request of an authenticated user
whose uploaded file has a content type not beginning with `image/` or a size above 5 MiB,
the upload is refused, the one response is 500 with the JSON error `Something went wrong!`,
and the store is unchanged: no post row is created and no user row is changed. -/
theorem rejected_upload (e : Env) (random : Nat → Nat) (s : Store) (user : Nat) (f : Upload)
    (storedName : String) (content full_name bio : Option String)
    (hrej : ¬("image/".data <+: f.mimetype.data) ∨ 5 * 1024 * 1024 < f.size) :
    run e random s user (.create_post content (some f) storedName) =
      ⟨s, [⟨500, .error "Something went wrong!"⟩]⟩ ∧
    run e random s user (.update_profile full_name bio (some f) storedName) =
      ⟨s, [⟨500, .error "Something went wrong!"⟩]⟩ := by
  have hup : uploadSingle (some f) storedName = .error ⟨500, .error "Something went wrong!"⟩ := by
    show (if (!"image/".data.isPrefixOf f.mimetype.data) = true then
        Except.error errorMiddleware
      else if f.size > fileSizeLimit then Except.error errorMiddleware
      else Except.ok (some storedName)) = Except.error ⟨500, .error "Something went wrong!"⟩
    rcases hrej with hno | hbig
    · have hpre : "image/".data.isPrefixOf f.mimetype.data = false := by
        rw [← Bool.not_eq_true, List.isPrefixOf_iff_prefix]
        exact hno
      rw [if_pos (by rw [hpre]; rfl)]
      rfl
    · have hb : f.size > fileSizeLimit := hbig
      rw [if_pos hb, ite_self]
      rfl
  simp [run, hup]

/-- Witness of C20 (amended): a 6 MiB image sent by user 1 to update the profile. -/
theorem rejected_upload_witness :
    run (Env.calm 9) (fun _ => 0) sampleStore 1
        (.update_profile (some "Alice") none (some ⟨"me.png", "image/png", 6 * 1024 * 1024⟩)
          "1-1.png") =
      ⟨sampleStore, [⟨500, .error "Something went wrong!"⟩]⟩ :=
  (rejected_upload (Env.calm 9) (fun _ => 0) sampleStore 1 ⟨"me.png", "image/png", 6 * 1024 * 1024⟩
    "1-1.png" none (some "Alice") none (Or.inr (by decide))).2

/-! ## Claims on required fields, post creation and profile update -/

/-- Counterexample to C21 as stated: a register call without a full name, and one with an
empty full name, are answered 201 and create the user row. -/
theorem register_without_full_name :
    Created (register (sampleLib "h1") (Env.calm 0) emptyStore (some "alice") (some "a@x.com")
      (some "pw") none) ∧
    (register (sampleLib "h1") (Env.calm 0) emptyStore (some "alice") (some "a@x.com")
      (some "pw") none).store.users =
      [{ id := 1, username := "alice", email := "a@x.com", password := "h1", full_name := none,
         bio := none, profile_picture := none, created_at := 0 }] ∧
    Created (register (sampleLib "h1") (Env.calm 0) emptyStore (some "alice") (some "a@x.com")
      (some "pw") (some "")) ∧
    (register (sampleLib "h1") (Env.calm 0) emptyStore (some "alice") (some "a@x.com")
      (some "pw") (some "")).store.users.length = 1 := by
  decide

/-- C21 (amended). A register call in which the username, the email or the password is
missing or empty is answered 400 `All fields are required` and leaves the store as it was,
whatever the full name, the library and the environment. -/
theorem register_required_fields (L : Lib) (e : Env) (s : Store)
    (username email password full_name : Option String)
    (h : (username = none ∨ username = some "") ∨ (email = none ∨ email = some "") ∨
      (password = none ∨ password = some "")) :
    register L e s username email password full_name =
      ⟨s, [⟨400, .error "All fields are required"⟩]⟩ := by
  cases username with
  | none => simp [register]
  | some u =>
    cases email with
    | none => simp [register]
    | some m =>
      cases password with
      | none => simp [register]
      | some p =>
        have hempty : (u == "" || m == "" || p == "") = true := by
          rcases h with h | h | h
          · rcases h with h | h
            · cases h
            · simp [Option.some.inj h]
          · rcases h with h | h
            · cases h
            · simp [Option.some.inj h]
          · rcases h with h | h
            · cases h
            · simp [Option.some.inj h]
        simp [register, hempty]

/-- Witness of C21 (amended): a register call with an empty email on the sample store. -/
theorem register_required_fields_witness :
    register (sampleLib "h3") (Env.calm 9) sampleStore (some "carol") (some "") (some "pw")
        (some "Carol") =
      ⟨sampleStore, [⟨400, .error "All fields are required"⟩]⟩ :=
  register_required_fields (sampleLib "h3") (Env.calm 9) sampleStore (some "carol") (some "")
    (some "pw") (some "Carol") (Or.inr (Or.inl (Or.inr rfl)))

/-- Every id of a table is below the rowid `AUTOINCREMENT` gives the next row. -/
theorem lt_nextId (seq : Nat) (ids : List Nat) (x : Nat) (hx : x ∈ ids) : x < nextId seq ids := by
  have hle : x ≤ ids.foldr max 0 := by
    induction ids with
    | nil => cases hx
    | cons a as ih =>
      simp only [List.foldr_cons]
      rcases List.mem_cons.mp hx with rfl | hmem
      · exact Nat.le_max_left _ _
      · exact Nat.le_trans (ih hmem) (Nat.le_max_right _ _)
  unfold nextId
  have := Nat.le_max_right seq (ids.foldr max 0)
  omega

/-- C22. `create_post` when the store raises no error: with the content missing or empty the
response is 400 `Content is required` and the store is unchanged; otherwise exactly one post
row is appended, with the caller as `user_id`, the given content, `image_url` null without a
file and `/uploads/<stored filename>` with one, and an id no other post row has; the response
is 201 with that id as `post_id`; the other four tables are unchanged. -/
theorem create_post_contract (e : Env) (s : Store) (user : Nat) (content file : Option String)
    (hf : e.fails 0 = false) :
    ((content = none ∨ content = some "") →
      create_post e s user content file = ⟨s, [⟨400, .error "Content is required"⟩]⟩) ∧
    (∀ c, content = some c → c ≠ "" →
      ∃ row : Post,
        row.user_id = user ∧ row.content = c ∧
        (file = none → row.image_url = none) ∧
        (∀ name, file = some name → row.image_url = some ("/uploads/" ++ name)) ∧
        (∀ p ∈ s.posts, p.id ≠ row.id) ∧
        (create_post e s user content file).store.posts = s.posts ++ [row] ∧
        (create_post e s user content file).sent =
          [⟨201, .postCreated "Post created successfully" row.id⟩] ∧
        (create_post e s user content file).store.users = s.users ∧
        (create_post e s user content file).store.comments = s.comments ∧
        (create_post e s user content file).store.likes = s.likes ∧
        (create_post e s user content file).store.followers = s.followers) := by
  constructor
  · rintro (h | h)
    · subst h
      rfl
    · subst h
      simp [create_post]
  · intro c hc hne
    subst hc
    refine ⟨Post.mk (nextId s.seq_posts (s.posts.map Post.id)) user c
      (file.map (fun name => "/uploads/" ++ name)) e.now, rfl, rfl, ?_, ?_, ?_, ?_⟩
    · intro hnone
      subst hnone
      rfl
    · intro name hname
      subst hname
      rfl
    · intro p hp heq
      have := lt_nextId s.seq_posts (s.posts.map Post.id) p.id (List.mem_map_of_mem Post.id hp)
      simp only at heq
      omega
    · simp [create_post, hne, exec, hf, insertPost]

/-- Witness of C22: bob creates a post with a picture in the sample store. -/
theorem create_post_contract_witness :
    ∃ row : Post,
      row.user_id = 2 ∧ row.content = "hi" ∧
      (create_post (Env.calm 9) sampleStore 2 (some "hi") (some "9-1.png")).store.posts =
        sampleStore.posts ++ [row] ∧
      (create_post (Env.calm 9) sampleStore 2 (some "hi") (some "9-1.png")).sent =
        [⟨201, .postCreated "Post created successfully" row.id⟩] :=
  ((create_post_contract (Env.calm 9) sampleStore 2 (some "hi") (some "9-1.png") rfl).2 "hi" rfl
    (by decide)).imp (fun _ h => ⟨h.1, h.2.1, h.2.2.2.2.2.1, h.2.2.2.2.2.2.1⟩)

/-- C23. `update_profile` changes nothing but the `full_name`, `bio` and `profile_picture` of
the rows of `users` whose id is the caller: the other four tables are unchanged, the rows of
`users` keep their place, id, username, email, password and creation time, a row of another
user is unchanged, and without a new file every `profile_picture` is unchanged.  When the
request succeeds, the caller's row has the given `full_name` and `bio`, and with a new file
its `profile_picture` is `/uploads/<stored filename>`. -/
theorem update_profile_confined (e : Env) (s : Store) (user : Nat)
    (full_name bio file : Option String) :
    (update_profile e s user full_name bio file).store.posts = s.posts ∧
    (update_profile e s user full_name bio file).store.comments = s.comments ∧
    (update_profile e s user full_name bio file).store.likes = s.likes ∧
    (update_profile e s user full_name bio file).store.followers = s.followers ∧
    List.Forall₂
      (fun u v : User =>
        v.id = u.id ∧ v.username = u.username ∧ v.email = u.email ∧ v.password = u.password ∧
        v.created_at = u.created_at ∧ (u.id ≠ user → v = u) ∧
        (file = none → v.profile_picture = u.profile_picture))
      s.users (update_profile e s user full_name bio file).store.users ∧
    (Succeeded (update_profile e s user full_name bio file) →
      ∀ v ∈ (update_profile e s user full_name bio file).store.users, v.id = user →
        v.full_name = full_name ∧ v.bio = bio ∧
        ∀ name, file = some name → v.profile_picture = some ("/uploads/" ++ name)) := by
  cases hf : e.fails 0 with
  | true =>
    have hst : update_profile e s user full_name bio file =
        ⟨s, [⟨500, .error "Failed to update profile"⟩]⟩ := by
      simp [update_profile, exec, hf]
    rw [hst]
    refine ⟨rfl, rfl, rfl, rfl, ?_, ?_⟩
    · rw [List.forall₂_same]
      intro u _
      exact ⟨rfl, rfl, rfl, rfl, rfl, fun _ => rfl, fun _ => rfl⟩
    · intro hs
      simp [Succeeded] at hs
  | false =>
    have hst : update_profile e s user full_name bio file =
        ⟨{ s with users := s.users.map (fun u =>
            if u.id == user then
              { u with full_name := full_name, bio := bio,
                       profile_picture :=
                         match file.map (fun name => "/uploads/" ++ name) with
                         | some pic => some pic
                         | none => u.profile_picture }
            else u) },
          [⟨200, .message "Profile updated successfully"⟩]⟩ := by
      simp [update_profile, exec, hf, updateUser]
    rw [hst]
    refine ⟨rfl, rfl, rfl, rfl, ?_, ?_⟩
    · simp only
      rw [List.forall₂_map_right_iff, List.forall₂_same]
      intro u _
      by_cases hid : u.id = user
      · simp only [hid, beq_self_eq_true, if_true, ne_eq, not_true_eq_false, false_implies,
          true_and]
        intro hnone
        subst hnone
        rfl
      · have hb : (u.id == user) = false := by simpa using hid
        simp [hb]
    · intro _ v hv hid
      simp only [List.mem_map] at hv
      obtain ⟨u, _, rfl⟩ := hv
      by_cases huid : u.id = user
      · simp only [huid, beq_self_eq_true, if_true, true_and]
        intro name hname
        subst hname
        rfl
      · have hb : (u.id == user) = false := by simpa using huid
        simp only [hb, Bool.false_eq_true, if_false] at hid
        exact absurd hid huid

/-- Witness of C23: alice updates her name without a new picture, then with one. -/
theorem update_profile_confined_witness :
    (update_profile (Env.calm 9) sampleStore 1 (some "Alice") none none).store.posts =
      sampleStore.posts ∧
    (∀ v ∈ (update_profile (Env.calm 9) sampleStore 1 (some "Alice") none
        (some "9-1.png")).store.users,
      v.id = 1 → v.full_name = some "Alice" ∧ v.bio = none ∧
        ∀ name, some "9-1.png" = some name → v.profile_picture = some ("/uploads/" ++ name)) :=
  ⟨(update_profile_confined (Env.calm 9) sampleStore 1 (some "Alice") none none).1,
    (update_profile_confined (Env.calm 9) sampleStore 1 (some "Alice") none
      (some "9-1.png")).2.2.2.2.2 (by decide)⟩

/-! ## Claim on the confirmations of the client -/

/-- Counterexample to C24 as stated: the user accepts the first prompt and would decline a
second one; `deletePost` shows one prompt only and sends the `DELETE` request. -/
theorem delete_post_single_prompt :
    Client.deletePost (fun k => k == 0) 7 =
      [.confirm "Are you sure you want to delete this post? This action cannot be undone." true,
       .request .DELETE ["api", "posts", "7"]] ∧
    ((Client.deletePost (fun k => k == 0) 7).filter Client.Event.isAccepted).length = 1 := by
  decide

/-- C24 (amended). In the client the `DELETE` request for the account is sent only after the
user accepted two prompts and the `DELETE` request for a post only after the user accepted
one prompt; it is then the last event and the only request; declining a prompt sends no
request. -/
theorem client_confirmations (answers : Nat → Bool) (postId : Nat) :
    ((answers 0 = true ∧ answers 1 = true) →
      ∃ t1 t2, Client.deleteAccountClick answers =
        [.confirm t1 true, .confirm t2 true, .request .DELETE ["api", "users", "account"]]) ∧
    (¬(answers 0 = true ∧ answers 1 = true) →
      (Client.deleteAccountClick answers).filter Client.Event.isRequest = []) ∧
    (answers 0 = true →
      ∃ t1, Client.deletePost answers postId =
        [.confirm t1 true, .request .DELETE ["api", "posts", toString postId]]) ∧
    (¬(answers 0 = true) →
      (Client.deletePost answers postId).filter Client.Event.isRequest = []) := by
  refine ⟨?_, ?_, ?_, ?_⟩
  · rintro ⟨h0, h1⟩
    simp only [Client.deleteAccountClick, h0, h1, Bool.not_true, Bool.false_eq_true, if_false]
    exact ⟨_, _, rfl⟩
  · intro h
    cases h0 : answers 0 with
    | false => simp [Client.deleteAccountClick, h0, Client.Event.isRequest]
    | true =>
      cases h1 : answers 1 with
      | false => simp [Client.deleteAccountClick, h0, h1, Client.Event.isRequest]
      | true => exact absurd ⟨h0, h1⟩ h
  · intro h0
    simp only [Client.deletePost, h0, Bool.not_true, Bool.false_eq_true, if_false]
    exact ⟨_, rfl⟩
  · intro h
    have h0 : answers 0 = false := by simpa using h
    simp [Client.deletePost, h0, Client.Event.isRequest]

/-- Witness of C24 (amended): a user who accepts the first prompt and declines the second
sends no request for the account. -/
theorem client_confirmations_witness :
    (Client.deleteAccountClick (fun k => k == 0)).filter Client.Event.isRequest = [] ∧
    ∃ t1, Client.deletePost (fun _ => true) 7 =
      [.confirm t1 true, .request .DELETE ["api", "posts", toString 7]] :=
  ⟨(client_confirmations (fun k => k == 0) 7).2.1 (by decide),
    (client_confirmations (fun _ => true) 7).2.2.1 rfl⟩

/-! ## Claims on rows left without their post -/

/-- C25. A successful `delete_account` of user `u` removes exactly the like, comment and post
rows whose `user_id` is `u`, the follow edges whose `follower_id` or `following_id` is `u`
and the user rows with id `u`; every other row stays, in its place, and the counters of
`sqlite_sequence` are unchanged.  In particular the likes and comments of other users on a
post of `u` stay in the store, while (post ids being a key) no post row has that `post_id`
any more. -/
theorem delete_account_frame (e : Env) (s : Store) (user : Nat)
    (h : Succeeded (delete_account e s user)) (hk : PostIdsUnique s) :
    (delete_account e s user).store.users = s.users.filter (fun u => decide (u.id ≠ user)) ∧
    (delete_account e s user).store.posts = s.posts.filter (fun p => decide (p.user_id ≠ user)) ∧
    (delete_account e s user).store.comments =
      s.comments.filter (fun c => decide (c.user_id ≠ user)) ∧
    (delete_account e s user).store.likes = s.likes.filter (fun l => decide (l.user_id ≠ user)) ∧
    (delete_account e s user).store.followers =
      s.followers.filter (fun f => decide (f.follower_id ≠ user ∧ f.following_id ≠ user)) ∧
    ((delete_account e s user).store.seq_users = s.seq_users ∧
      (delete_account e s user).store.seq_posts = s.seq_posts ∧
      (delete_account e s user).store.seq_comments = s.seq_comments ∧
      (delete_account e s user).store.seq_likes = s.seq_likes ∧
      (delete_account e s user).store.seq_followers = s.seq_followers) ∧
    (∀ p ∈ s.posts, p.user_id = user →
      (∀ l ∈ s.likes, l.post_id = p.id → l.user_id ≠ user →
        l ∈ (delete_account e s user).store.likes) ∧
      (∀ c ∈ s.comments, c.post_id = p.id → c.user_id ≠ user →
        c ∈ (delete_account e s user).store.comments) ∧
      (∀ q ∈ (delete_account e s user).store.posts, q.id ≠ p.id)) := by
  obtain ⟨h0, h1, h2, h3, h4⟩ := delete_account_succeeded e s user h
  rw [delete_account_calm e s user h0 h1 h2 h3 h4]
  refine ⟨?_, ?_, ?_, ?_, ?_, ⟨rfl, rfl, rfl, rfl, rfl⟩, ?_⟩
  · show s.users.filter _ = s.users.filter _
    congr 1
    funext u
    rw [Bool.eq_iff_iff]
    simp
  · show s.posts.filter _ = s.posts.filter _
    congr 1
    funext p
    rw [Bool.eq_iff_iff]
    simp
  · show s.comments.filter _ = s.comments.filter _
    congr 1
    funext c
    rw [Bool.eq_iff_iff]
    simp
  · show s.likes.filter _ = s.likes.filter _
    congr 1
    funext l
    rw [Bool.eq_iff_iff]
    simp
  · show s.followers.filter _ = s.followers.filter _
    congr 1
    funext f
    rw [Bool.eq_iff_iff]
    simp
  · intro p hp hown
    refine ⟨?_, ?_, ?_⟩
    · intro l hl _ hne
      show l ∈ s.likes.filter _
      rw [List.mem_filter]
      exact ⟨hl, by simpa using hne⟩
    · intro c hc _ hne
      show c ∈ s.comments.filter _
      rw [List.mem_filter]
      exact ⟨hc, by simpa using hne⟩
    · intro q hq hid
      have hq' : q ∈ s.posts.filter (fun p => !(p.user_id == user)) := hq
      obtain ⟨hqmem, hqown⟩ := List.mem_filter.mp hq'
      have hqp : q = p := List.inj_on_of_nodup_map hk hqmem hp hid
      subst hqp
      simp [hown] at hqown

/-- Witness of C25: alice (user 1) deletes her account in the sample store; the like and the
comment of bob on her post 1 stay, and no post has id 1 any more. -/
theorem delete_account_frame_witness :
    Succeeded (delete_account (Env.calm 9) sampleStore 1) ∧ PostIdsUnique sampleStore ∧
    (delete_account (Env.calm 9) sampleStore 1).store.likes =
      [{ id := 1, post_id := 1, user_id := 2, created_at := 4 }] ∧
    (∀ c ∈ sampleStore.comments, c.post_id = 1 → c.user_id ≠ 1 →
      c ∈ (delete_account (Env.calm 9) sampleStore 1).store.comments) ∧
    (∀ q ∈ (delete_account (Env.calm 9) sampleStore 1).store.posts, q.id ≠ 1) :=
  have hs : Succeeded (delete_account (Env.calm 9) sampleStore 1) := by decide
  have hk : PostIdsUnique sampleStore := by simp [PostIdsUnique, sampleStore]
  have h := delete_account_frame (Env.calm 9) sampleStore 1 hs hk
  have hp := h.2.2.2.2.2.2 ⟨1, 1, "hello", none, 2⟩ (by simp [sampleStore]) rfl
  ⟨hs, hk, by decide, hp.2.1, hp.2.2⟩

/-- Counterexample to C26 as stated: after alice deleted post 1 of the sample store, the like
row of bob for post 1 is still there and no post has id 1; the toggle of bob on post 1 then
deletes that row and reports `liked: false`. -/
theorem toggle_like_on_deleted_post :
    Reachable (delete_post (Env.calm 6) sampleStore 1 1).store ∧
    (delete_post (Env.calm 6) sampleStore 1 1).store.posts = [] ∧
    (toggle_like (Env.calm 9) (delete_post (Env.calm 6) sampleStore 1 1).store 2 1).sent =
      [⟨200, .liked "Post unliked" false⟩] ∧
    (toggle_like (Env.calm 9) (delete_post (Env.calm 6) sampleStore 1 1).store 2 1).store.likes =
      [] :=
  ⟨Reachable.step _ (sampleLib "h") (Env.calm 6) (.delete_post 1 1) sampleStore_reachable,
    by decide, by decide, by decide⟩

/-- C26 (amended). For a post id with no post row, the store raising no error: `add_comment`
with non-empty content is answered 201 and appends a comment row with that `post_id`, and
`toggle_like` of a user who has no like row for that id appends a like row with that
`post_id` and reports `liked: true`; in both cases there is still no post row with the id. -/
theorem engagement_without_post (e : Env) (s : Store) (user postId : Nat)
    (hno : ∀ p ∈ s.posts, p.id ≠ postId) (h0 : e.fails 0 = false) :
    (∀ c : String, c ≠ "" →
      ∃ row : Comment,
        row.post_id = postId ∧ row.user_id = user ∧ row.content = c ∧
        (add_comment e s user postId (some c)).store.comments = s.comments ++ [row] ∧
        (add_comment e s user postId (some c)).sent =
          [⟨201, .commentCreated "Comment added successfully" row.id⟩] ∧
        (∀ p ∈ (add_comment e s user postId (some c)).store.posts, p.id ≠ postId)) ∧
    (e.fails 1 = false → (¬∃ l ∈ s.likes, l.post_id = postId ∧ l.user_id = user) →
      ∃ row : Like,
        row.post_id = postId ∧ row.user_id = user ∧
        (toggle_like e s user postId).store.likes = s.likes ++ [row] ∧
        (toggle_like e s user postId).sent = [⟨200, .liked "Post liked" true⟩] ∧
        (∀ p ∈ (toggle_like e s user postId).store.posts, p.id ≠ postId)) := by
  constructor
  · intro c hc
    have hst : add_comment e s user postId (some c) =
        ⟨{ s with comments := s.comments ++
                    [Comment.mk (nextId s.seq_comments (s.comments.map Comment.id)) postId user c
                      e.now],
                  seq_comments := nextId s.seq_comments (s.comments.map Comment.id) },
          [⟨201, .commentCreated "Comment added successfully"
            (nextId s.seq_comments (s.comments.map Comment.id))⟩]⟩ := by
      simp [add_comment, hc, exec, h0, insertComment]
    rw [hst]
    exact ⟨_, rfl, rfl, rfl, rfl, rfl, hno⟩
  · intro h1 hx
    have hx' : s.likes.any (likeMatches postId user) = false := by
      rw [← Bool.not_eq_true, any_likeMatches_iff]
      exact hx
    rw [toggle_like_absent e s user postId h0 h1 hx']
    exact ⟨_, rfl, rfl, rfl, rfl, hno⟩

/-- Witness of C26 (amended): in the sample store, which has no post 5, bob comments on
post 5 and likes it. -/
theorem engagement_without_post_witness :
    (∀ p ∈ sampleStore.posts, p.id ≠ 5) ∧
    (∃ row : Comment, row.post_id = 5 ∧ row.user_id = 2 ∧ row.content = "hi" ∧
      (add_comment (Env.calm 9) sampleStore 2 5 (some "hi")).store.comments =
        sampleStore.comments ++ [row]) ∧
    (∃ row : Like, row.post_id = 5 ∧ row.user_id = 2 ∧
      (toggle_like (Env.calm 9) sampleStore 2 5).sent = [⟨200, .liked "Post liked" true⟩]) :=
  have hno : ∀ p ∈ sampleStore.posts, p.id ≠ 5 := by decide
  have h := engagement_without_post (Env.calm 9) sampleStore 2 5 hno rfl
  ⟨hno, (h.1 "hi" (by decide)).imp (fun _ hr => ⟨hr.1, hr.2.1, hr.2.2.1, hr.2.2.2.1⟩),
    (h.2 rfl (by decide)).imp (fun _ hr => ⟨hr.1, hr.2.1, hr.2.2.2.1⟩)⟩

end SocialMedia
